import Mathlib

/-!
# OpenXR Toolkit: API layer bootstrap (`framework/dispatch.cpp`)

A shallow embedding of the three entry points of `dispatch.cpp`
(`xrCreateApiLayerInstance`, `xrDestroyInstance`, `xrGetInstanceProcAddr`) and a
verification of the bootstrap properties of the specification against it.

Modelling conventions.

* Function pointers and handles are natural numbers, `0` being `nullptr` /
  `XR_NULL_HANDLE`.  `XrResult` is an integer: `XR_SUCCEEDED r` is `0 ≤ r`.
* The loader's chain `XrApiLayerNextInfo* nextInfo` is a null-terminated singly
  linked list.  It is embedded as a `List XrApiLayerNextInfo`: `[]` is the null
  pointer and in `e :: rest` the field `e.next` is `rest`.
* Everything outside this file (the next layers and the runtime reached through
  function pointers, the registry helpers, the layer singleton's own methods) is
  an environment `World`.  Each answer of the environment may depend on the whole
  `history` of calls made so far, so the environment is as stateful as it wants.
  Every call into the environment is appended, with its answer, to `State.history`.
  The environment does not write to the chain, to `g_bypass` or to the singleton slot.
* Logging and tracing statements are left out.
* An exception leaving an entry point is the outcome `Outcome.threw`.
-/

namespace Toolkit

/-! ## Data model -/

abbrev XrResult := Int
abbrev FnPtr := Nat
abbrev XrInstance := Nat
abbrev XrSystemId := Nat

def XR_SUCCESS : XrResult := 0
def XR_ERROR_VALIDATION_FAILURE : XrResult := -1
def XR_ERROR_RUNTIME_FAILURE : XrResult := -2
def XR_ERROR_INITIALIZATION_FAILED : XrResult := -6
def XR_NULL_HANDLE : XrInstance := 0
def XR_FORM_FACTOR_HEAD_MOUNTED_DISPLAY : Nat := 1

/-- The test `XR_SUCCEEDED(result)` of `openxr.h`: `result >= 0`. -/
def XR_SUCCEEDED (result : XrResult) : Bool := decide (0 ≤ result)

/-- The test `XR_FAILED(result)` of `openxr.h`: `result < 0`. -/
def XR_FAILED (result : XrResult) : Bool := decide (result < 0)

structure XrApplicationInfo where
  applicationName : String
  applicationVersion : Nat
  engineName : String
  engineVersion : Nat
  apiVersion : Nat
deriving DecidableEq, Repr

/-- The `XrInstanceCreateInfo` record.  The two `enabled...Names` arrays are the memory the
pointers designate; the counts are separate fields, as in C. -/
structure XrInstanceCreateInfo where
  createFlags : Nat
  applicationInfo : XrApplicationInfo
  enabledApiLayerCount : Nat
  enabledApiLayerNames : List String
  enabledExtensionCount : Nat
  enabledExtensionNames : List String
deriving DecidableEq, Repr

/-- One entry of the loader's chain.  Its `next` pointer is the tail of the list the entry
sits in. -/
structure XrApiLayerNextInfo where
  structType : Nat
  structVersion : Nat
  structSize : Nat
  layerName : String
  nextGetInstanceProcAddr : FnPtr
  nextCreateApiLayerInstance : FnPtr
deriving DecidableEq, Repr

structure XrApiLayerCreateInfo where
  structType : Nat
  structVersion : Nat
  structSize : Nat
  loaderInstance : Nat
  settings_file_location : String
  nextInfo : List XrApiLayerNextInfo
deriving DecidableEq, Repr

/-- What `dispatch.cpp` takes from headers (`layer.h`, `pch.h`, the loader interface header):
the layer's name, the registry path, the constants of the loader interface and the check
`CHECK_XRCMD`.  `CHECK_XRCMD r = true` means that the check lets the result `r` pass; otherwise
it throws. -/
structure Build where
  LayerName : String
  RegPrefix : String
  XR_LOADER_INTERFACE_STRUCT_API_LAYER_CREATE_INFO : Nat
  XR_API_LAYER_CREATE_INFO_STRUCT_VERSION : Nat
  sizeof_XrApiLayerCreateInfo : Nat
  XR_LOADER_INTERFACE_STRUCT_API_LAYER_NEXT_INFO : Nat
  XR_API_LAYER_NEXT_INFO_STRUCT_VERSION : Nat
  sizeof_XrApiLayerNextInfo : Nat
  CHECK_XRCMD : XrResult → Bool

/-- Modelled from the spec: the layer singleton behind `GetInstance()` (declared in
`factories.h`, defined outside `dispatch.cpp`).  It owns the resolver of the real instance, the
real instance handle and the recorded list of upstream layer names. -/
structure OpenXrApi where
  getInstanceProcAddr : FnPtr
  inst : XrInstance
  upstreamLayers : List String
deriving DecidableEq, Repr

/-- How a method of the singleton ends: it returns, it raises `std::runtime_error`, or it raises
an exception of another class. -/
inductive LayerResult (α : Type) where
  | returned (a : α)
  | runtime_error
  | other_exception
deriving DecidableEq, Repr

/-- A call made by this file into its environment, together with the answer it got (the
result code and the out-parameters).  The result of the two calls whose result the code
discards (`RegSetString`, the resolved `xrDestroyInstance`) is not recorded. -/
inductive Event where
  | RegSetString (subKey value data : String)
  | RegGetDword (subKey value : String) (result : Option Int)
  | nextCreateApiLayerInstance (fn : FnPtr) (info : XrInstanceCreateInfo)
      (apiLayerInfo : XrApiLayerCreateInfo) (result : XrResult) (inst : XrInstance)
  | nextGetInstanceProcAddr (fn : FnPtr) (inst : XrInstance) (name : String)
      (result : XrResult) (function : FnPtr)
  | xrEnumerateInstanceExtensionProperties (fn : FnPtr) (capacity : Nat)
      (result : XrResult) (count : Nat) (names : List String)
  | xrGetSystem (fn : FnPtr) (inst : XrInstance) (formFactor : Nat)
      (result : XrResult) (systemId : XrSystemId)
  | xrGetSystemProperties (fn : FnPtr) (inst : XrInstance) (systemId : XrSystemId)
      (result : XrResult) (systemName : String)
  | xrDestroyInstance (fn : FnPtr) (inst : XrInstance)
  | layerCreateInstance (layer : OpenXrApi) (info : XrInstanceCreateInfo)
      (result : LayerResult XrResult)
  | layerDestroyInstance (layer : OpenXrApi) (inst : XrInstance) (result : LayerResult XrResult)
  | layerGetInstanceProcAddr (layer : OpenXrApi) (inst : XrInstance) (name : String)
      (result : LayerResult (XrResult × FnPtr))
deriving DecidableEq, Repr

/-- The environment.  Every field answers one kind of call; the first argument is the history
of calls made before this one.  Out-parameters are returned next to the result code. -/
structure World where
  moduleFileName : String
  RegGetDword : List Event → String → String → Option Int
  nextCreateApiLayerInstance :
    List Event → FnPtr → XrInstanceCreateInfo → XrApiLayerCreateInfo → XrResult × XrInstance
  nextGetInstanceProcAddr : List Event → FnPtr → XrInstance → String → XrResult × FnPtr
  xrEnumerateInstanceExtensionProperties : List Event → FnPtr → Nat → XrResult × Nat × List String
  xrGetSystem : List Event → FnPtr → XrInstance → Nat → XrResult × XrSystemId
  xrGetSystemProperties : List Event → FnPtr → XrInstance → XrSystemId → XrResult × String
  layerCreateInstance : List Event → OpenXrApi → XrInstanceCreateInfo → LayerResult XrResult
  layerDestroyInstance : List Event → OpenXrApi → XrInstance → LayerResult XrResult
  layerGetInstanceProcAddr :
    List Event → OpenXrApi → XrInstance → String → LayerResult (XrResult × FnPtr)

/-- The process-wide state: the global `g_bypass`, the singleton slot behind `GetInstance()` /
`ResetInstance()`, and the history of calls into the environment. -/
structure State where
  g_bypass : FnPtr
  g_instance : Option OpenXrApi
  history : List Event
deriving DecidableEq, Repr

inductive Outcome where
  | returned (result : XrResult)
  | threw
deriving DecidableEq, Repr

/-- Modelled from the spec: `GetInstance()` of `factories.h` returns the singleton, constructing
it if absent. -/
def GetInstance (g : Option OpenXrApi) : OpenXrApi :=
  match g with
  | some layer => layer
  | none => { getInstanceProcAddr := 0, inst := XR_NULL_HANDLE, upstreamLayers := [] }

/-- Modelled from the spec: `ResetInstance()` of `factories.h` tears the singleton down and
releases its storage. -/
def ResetInstance : Option OpenXrApi := none

/-! ## Strings and `std::set<std::string>` -/

/-- The `substr(pos, n)` member of `std::string_view`. -/
def substr (s : String) (pos n : Nat) : String := String.mk ((s.data.drop pos).take n)

/-- Does `pat` occur in `s` (`std::string::find(pat) != npos`)? -/
def findChars (pat : List Char) : List Char → Bool
  | [] => pat.isEmpty
  | c :: cs => pat.isPrefixOf (c :: cs) || findChars pat cs

def stringFind (s pat : String) : Bool := findChars pat.data s.data

/-- Lexicographic comparison of two strings, the order of `std::set<std::string>`. -/
def stringLess : List Char → List Char → Bool
  | [], [] => false
  | [], _ :: _ => true
  | _ :: _, [] => false
  | a :: as, b :: bs => decide (a.toNat < b.toNat) || (decide (a = b) && stringLess as bs)

/-- Put `x` at its place in an ordered list. -/
def orderedPut (x : String) : List String → List String
  | [] => [x]
  | y :: ys => if stringLess x.data y.data then x :: y :: ys else y :: orderedPut x ys

/-- The `insert` member of `std::set<std::string>`; the set is the list of its elements in
iteration order. -/
def setInsert (x : String) (set : List String) : List String :=
  if x ∈ set then set else orderedPut x set

/-! ## `xrCreateApiLayerInstance` -/

/-- Lines 48-58: the validation of the layer-info record.  The result is the record, its first
chain entry (this layer's own) and the entries after it, or `none` when validation fails. -/
def validate (b : Build) :
    Option XrApiLayerCreateInfo →
      Option (XrApiLayerCreateInfo × XrApiLayerNextInfo × List XrApiLayerNextInfo)
  | none => none
  | some apiLayerInfo =>
    if apiLayerInfo.structType ≠ b.XR_LOADER_INTERFACE_STRUCT_API_LAYER_CREATE_INFO ∨
        apiLayerInfo.structVersion ≠ b.XR_API_LAYER_CREATE_INFO_STRUCT_VERSION ∨
        apiLayerInfo.structSize ≠ b.sizeof_XrApiLayerCreateInfo then none
    else
      match apiLayerInfo.nextInfo with
      | [] => none
      | nextInfo :: next =>
        if nextInfo.structType ≠ b.XR_LOADER_INTERFACE_STRUCT_API_LAYER_NEXT_INFO ∨
            nextInfo.structVersion ≠ b.XR_API_LAYER_NEXT_INFO_STRUCT_VERSION ∨
            nextInfo.structSize ≠ b.sizeof_XrApiLayerNextInfo ∨
            nextInfo.layerName ≠ b.LayerName ∨
            nextInfo.nextGetInstanceProcAddr = 0 ∨
            nextInfo.nextCreateApiLayerInstance = 0 then none
        else some (apiLayerInfo, nextInfo, next)

/-- Line 62: the registry key of the application. -/
def baseKey (b : Build) (instanceCreateInfo : XrInstanceCreateInfo) : String :=
  b.RegPrefix ++ "\\" ++ instanceCreateInfo.applicationInfo.applicationName

/-- Line 69: the module path is recorded under the key of the application. -/
def recordModule (b : Build) (w : World) (instanceCreateInfo : XrInstanceCreateInfo) : Event :=
  Event.RegSetString (baseKey b instanceCreateInfo) "module" w.moduleFileName

/-- Lines 77-78: `RegGetDword(..., L"bypass").value_or(0)`, read after the module path was
recorded. -/
def bypassFlag (b : Build) (w : World) (h : List Event)
    (instanceCreateInfo : XrInstanceCreateInfo) : Int :=
  (w.RegGetDword (h ++ [recordModule b w instanceCreateInfo]) (baseKey b instanceCreateInfo)
    "bypass").getD 0

/-- Lines 62-78: the module path is always recorded; `bypassLayer` is true when the engine is
"Chromium" or when the registry holds a non-zero `bypass` value (read only when the engine name
did not decide).  Returns `bypassLayer` and the calls made. -/
def bypassDecision (b : Build) (w : World) (h : List Event)
    (instanceCreateInfo : XrInstanceCreateInfo) : Bool × List Event :=
  if instanceCreateInfo.applicationInfo.engineName = "Chromium" then
    (true, [recordModule b w instanceCreateInfo])
  else
    ( decide (bypassFlag b w h instanceCreateInfo ≠ 0),
      [ recordModule b w instanceCreateInfo,
        Event.RegGetDword (baseKey b instanceCreateInfo) "bypass"
          (w.RegGetDword (h ++ [recordModule b w instanceCreateInfo])
            (baseKey b instanceCreateInfo) "bypass") ] )

/-- Line 130: `layerName.substr(0, 17) == "XR_APILAYER_VIVE_"`. -/
def isViveLayer (layerName : String) : Bool :=
  decide (substr layerName 0 17 = "XR_APILAYER_VIVE_")

/-- Lines 126-150: the splice loop.  `info` is the current entry, the list is `info->next`.
The result is the entry `info` as the loop leaves it, the chain hanging from its `next`, and
`extensionsToRequest`. -/
def scrubLoop :
    XrApiLayerNextInfo → List XrApiLayerNextInfo → List String →
      XrApiLayerNextInfo × List XrApiLayerNextInfo × List String
  | info, [], extensionsToRequest => (info, [], extensionsToRequest)
  | info, next :: rest, extensionsToRequest =>
    if isViveLayer next.layerName then
      scrubLoop
        { info with
          nextCreateApiLayerInstance := next.nextCreateApiLayerInstance
          nextGetInstanceProcAddr := next.nextGetInstanceProcAddr }
        rest extensionsToRequest
    else
      let r := scrubLoop next rest
        (if next.layerName = "XR_APILAYER_ULTRALEAP_hand_tracking" then
          setInsert "XR_EXT_hand_tracking" extensionsToRequest
        else extensionsToRequest)
      (info, r.1 :: r.2.1, r.2.2)

/-- The splice loop run on a whole chain given by its head pointer (`while (info && info->next)`
does nothing on a null head). -/
def scrubChain (chain : List XrApiLayerNextInfo) (extensionsToRequest : List String) :
    List XrApiLayerNextInfo × List String :=
  match chain with
  | [] => ([], extensionsToRequest)
  | info :: next =>
    let r := scrubLoop info next extensionsToRequest
    (r.1 :: r.2.1, r.2.2)

/-- The function pointers resolved from the dummy instance (lines 109-112). -/
structure ProbeFns where
  xrEnumerateInstanceExtensionProperties : FnPtr
  xrGetSystem : FnPtr
  xrGetSystemProperties : FnPtr
  xrDestroyInstance : FnPtr
deriving DecidableEq, Repr

/-- One `nextGetInstanceProcAddr(inst, name, &function)` call with its answer. -/
def resolveEvent (w : World) (h : List Event) (fn : FnPtr) (inst : XrInstance) (name : String) :
    Event :=
  Event.nextGetInstanceProcAddr fn inst name (w.nextGetInstanceProcAddr h fn inst name).1
    (w.nextGetInstanceProcAddr h fn inst name).2

/-- Lines 163-174: the four `CHECK_XRCMD(nextGetInstanceProcAddr(dummyInstance, ...))`.
`none` when a check throws. -/
def resolveProbeFns (b : Build) (w : World) (h : List Event) (fn : FnPtr)
    (dummyInstance : XrInstance) : Option ProbeFns × List Event :=
  let c1 := resolveEvent w h fn dummyInstance "xrEnumerateInstanceExtensionProperties"
  let r1 := w.nextGetInstanceProcAddr h fn dummyInstance "xrEnumerateInstanceExtensionProperties"
  if b.CHECK_XRCMD r1.1 = false then (none, [c1])
  else
    let c2 := resolveEvent w (h ++ [c1]) fn dummyInstance "xrGetSystem"
    let r2 := w.nextGetInstanceProcAddr (h ++ [c1]) fn dummyInstance "xrGetSystem"
    if b.CHECK_XRCMD r2.1 = false then (none, [c1, c2])
    else
      let c3 := resolveEvent w (h ++ [c1, c2]) fn dummyInstance "xrGetSystemProperties"
      let r3 := w.nextGetInstanceProcAddr (h ++ [c1, c2]) fn dummyInstance "xrGetSystemProperties"
      if b.CHECK_XRCMD r3.1 = false then (none, [c1, c2, c3])
      else
        let c4 := resolveEvent w (h ++ [c1, c2, c3]) fn dummyInstance "xrDestroyInstance"
        let r4 := w.nextGetInstanceProcAddr (h ++ [c1, c2, c3]) fn dummyInstance "xrDestroyInstance"
        if b.CHECK_XRCMD r4.1 = false then (none, [c1, c2, c3, c4])
        else
          ( some
              { xrEnumerateInstanceExtensionProperties := r1.2
                xrGetSystem := r2.2
                xrGetSystemProperties := r3.2
                xrDestroyInstance := r4.2 },
            [c1, c2, c3, c4] )

/-- Lines 201-203: the extensions the layer requests when the runtime reports them. -/
def isWantedExtension (extensionName : String) : Bool :=
  decide (extensionName = "XR_EXT_hand_tracking") ||
  decide (extensionName = "XR_EXT_eye_gaze_interaction") ||
  decide (extensionName = "XR_KHR_win32_convert_performance_counter_time") ||
  decide (extensionName = "XR_KHR_visibility_mask") ||
  decide (extensionName = "XR_FB_eye_tracking_social")

/-- Lines 195-206: the loop over the enumerated extensions. -/
def collectExtensions : List String → List String → List String
  | [], extensionsToRequest => extensionsToRequest
  | extensionName :: extensions, extensionsToRequest =>
    collectExtensions extensions
      (if isWantedExtension extensionName then setInsert extensionName extensionsToRequest
       else extensionsToRequest)

/-- Lines 192-194: a vector of `extensionsCount` entries with empty names, into which the callee
wrote `written` (at most `extensionsCount` entries fit). -/
def extensionBuffer (extensionsCount : Nat) (written : List String) : List String :=
  written.take extensionsCount ++ List.replicate (extensionsCount - written.length) ""

/-- One `xrEnumerateInstanceExtensionProperties(nullptr, capacity, &count, buffer)` call with
its answer. -/
def enumerateEvent (w : World) (h : List Event) (fn : FnPtr) (capacity : Nat) : Event :=
  Event.xrEnumerateInstanceExtensionProperties fn capacity
    (w.xrEnumerateInstanceExtensionProperties h fn capacity).1
    (w.xrEnumerateInstanceExtensionProperties h fn capacity).2.1
    (w.xrEnumerateInstanceExtensionProperties h fn capacity).2.2

/-- Lines 189-209: enumerate the extensions through the resolved entry point, if any.  `none`
when a check throws. -/
def queryExtensions (b : Build) (w : World) (h : List Event) (fn : FnPtr)
    (extensionsToRequest : List String) : Option (List String) × List Event :=
  if fn ≠ 0 then
    let c1 := enumerateEvent w h fn 0
    let r1 := w.xrEnumerateInstanceExtensionProperties h fn 0
    if b.CHECK_XRCMD r1.1 = false then (none, [c1])
    else
      let extensionsCount := r1.2.1
      let c2 := enumerateEvent w (h ++ [c1]) fn extensionsCount
      let r2 := w.xrEnumerateInstanceExtensionProperties (h ++ [c1]) fn extensionsCount
      if b.CHECK_XRCMD r2.1 = false then (none, [c1, c2])
      else
        (some (collectExtensions (extensionBuffer extensionsCount r2.2.2) extensionsToRequest),
          [c1, c2])
  else (some extensionsToRequest, [])

/-- Lines 213-225: the Vive runtime workaround.  Returns the value of the local
`xrDestroyInstance` afterwards, or `none` when the check throws. -/
def viveRuntimeWorkaround (b : Build) (w : World) (h : List Event) (fns : ProbeFns)
    (dummyInstance : XrInstance) : Option FnPtr × List Event :=
  if fns.xrGetSystem ≠ 0 ∧ fns.xrGetSystemProperties ≠ 0 then
    let r1 := w.xrGetSystem h fns.xrGetSystem dummyInstance XR_FORM_FACTOR_HEAD_MOUNTED_DISPLAY
    let c1 := Event.xrGetSystem fns.xrGetSystem dummyInstance XR_FORM_FACTOR_HEAD_MOUNTED_DISPLAY
      r1.1 r1.2
    if XR_SUCCEEDED r1.1 then
      let r2 := w.xrGetSystemProperties (h ++ [c1]) fns.xrGetSystemProperties dummyInstance r1.2
      let c2 := Event.xrGetSystemProperties fns.xrGetSystemProperties dummyInstance r1.2
        r2.1 r2.2
      if b.CHECK_XRCMD r2.1 = false then (none, [c1, c2])
      else if stringFind r2.2 "Vive Reality system" then (some 0, [c1, c2])
      else (some fns.xrDestroyInstance, [c1, c2])
    else (some fns.xrDestroyInstance, [c1])
  else (some fns.xrDestroyInstance, [])

/-- Lines 227-231: destroy the dummy instance unless the pointer is null. -/
def destroyDummy (xrDestroyInstance : FnPtr) (dummyInstance : XrInstance) : List Event :=
  if xrDestroyInstance ≠ 0 then [Event.xrDestroyInstance xrDestroyInstance dummyInstance] else []

/-- Lines 160-187: the entry points are resolved when the dummy instance was created, and stay
null otherwise. -/
def probeFnsOf (b : Build) (w : World) (h : List Event) (fn : FnPtr) (result : XrResult)
    (dummyInstance : XrInstance) : Option ProbeFns × List Event :=
  if result = XR_SUCCESS then resolveProbeFns b w h fn dummyInstance
  else
    ( some
        { xrEnumerateInstanceExtensionProperties := 0
          xrGetSystem := 0
          xrGetSystemProperties := 0
          xrDestroyInstance := 0 },
      [] )

/-- Lines 160-231: what follows the creation of the dummy instance, whose result is `result`
and whose handle is `dummyInstance`.  Returns `extensionsToRequest` (`none` when a check
throws) and the calls made. -/
def afterDummyCreate (b : Build) (w : World) (h : List Event) (fn : FnPtr) (result : XrResult)
    (dummyInstance : XrInstance) (extensionsToRequest : List String) :
    Option (List String) × List Event :=
  let resolved := probeFnsOf b w h fn result dummyInstance
  match resolved.1 with
  | none => (none, resolved.2)
  | some fns =>
    let q := queryExtensions b w (h ++ resolved.2) fns.xrEnumerateInstanceExtensionProperties
      extensionsToRequest
    match q.1 with
    | none => (none, resolved.2 ++ q.2)
    | some exts =>
      let v := viveRuntimeWorkaround b w (h ++ resolved.2 ++ q.2) fns dummyInstance
      match v.1 with
      | none => (none, resolved.2 ++ q.2 ++ v.2)
      | some xrDestroyInstance =>
        (some exts, resolved.2 ++ q.2 ++ v.2 ++ destroyDummy xrDestroyInstance dummyInstance)

/-- Lines 115-116: the create info of the dummy instance. -/
def dummyCreateInfo (instanceCreateInfo : XrInstanceCreateInfo) : XrInstanceCreateInfo :=
  { instanceCreateInfo with enabledExtensionCount := 0, enabledApiLayerCount := 0 }

/-- One `nextCreateApiLayerInstance(info, apiLayerInfo, &instance)` call with its answer. -/
def chainCreateEvent (w : World) (h : List Event) (fn : FnPtr) (info : XrInstanceCreateInfo)
    (apiLayerInfo : XrApiLayerCreateInfo) : Event :=
  Event.nextCreateApiLayerInstance fn info apiLayerInfo
    (w.nextCreateApiLayerInstance h fn info apiLayerInfo).1
    (w.nextCreateApiLayerInstance h fn info apiLayerInfo).2

/-- What the block of lines 107-232 leaves behind. -/
structure ProbeOut where
  extensionsToRequest : Option (List String)
  nextInfo : XrApiLayerNextInfo
  next : List XrApiLayerNextInfo
  calls : List Event
deriving DecidableEq, Repr

/-- Lines 107-232: scrub the chain in place, create the dummy instance through the scrubbed
chain and query it.  `nextInfo` / `next` are this layer's chain entry and its successors as the
block leaves them; `extensionsToRequest` is `none` when a check throws. -/
def probe (b : Build) (w : World) (h : List Event) (instanceCreateInfo : XrInstanceCreateInfo)
    (apiLayerInfo : XrApiLayerCreateInfo) (nextInfo : XrApiLayerNextInfo)
    (next : List XrApiLayerNextInfo) : ProbeOut :=
  let scrubbed := scrubLoop nextInfo next []
  let chainApiLayerInfo := { apiLayerInfo with nextInfo := scrubbed.2.1 }
  let c := chainCreateEvent w h scrubbed.1.nextCreateApiLayerInstance
    (dummyCreateInfo instanceCreateInfo) chainApiLayerInfo
  let r := w.nextCreateApiLayerInstance h scrubbed.1.nextCreateApiLayerInstance
    (dummyCreateInfo instanceCreateInfo) chainApiLayerInfo
  let rest := afterDummyCreate b w (h ++ [c]) scrubbed.1.nextGetInstanceProcAddr r.1 r.2
    scrubbed.2.2
  { extensionsToRequest := rest.1
    nextInfo := scrubbed.1
    next := scrubbed.2.1
    calls := c :: rest.2 }

/-- Lines 248-251: the loop writing `extensionsToRequest` into the slots from
`nextExtensionSlot` on. -/
def writeSlots : List String → Nat → List String → List String
  | newEnabledExtensionNames, _, [] => newEnabledExtensionNames
  | newEnabledExtensionNames, nextExtensionSlot, extension :: extensions =>
    writeSlots (newEnabledExtensionNames.set nextExtensionSlot extension)
      ((nextExtensionSlot + 1) % 2 ^ 32) extensions

/-- The `memcpy` of the first `n` pointers of `src` over the beginning of `dst`. -/
def memcpy (dst src : List String) (n : Nat) : List String := src.take n ++ dst.drop n

/-- Lines 235-253: the create info of the real creation call.  The count is a `uint32_t`; a
slot of the resized vector that is never written holds the empty name. -/
def chainInstanceCreateInfo (fastInitialization : Bool)
    (instanceCreateInfo : XrInstanceCreateInfo) (extensionsToRequest : List String) :
    XrInstanceCreateInfo :=
  if fastInitialization = false ∧ extensionsToRequest ≠ [] then
    let enabledExtensionCount :=
      (instanceCreateInfo.enabledExtensionCount + extensionsToRequest.length % 2 ^ 32) % 2 ^ 32
    let newEnabledExtensionNames :=
      writeSlots
        (memcpy (List.replicate enabledExtensionCount "") instanceCreateInfo.enabledExtensionNames
          instanceCreateInfo.enabledExtensionCount)
        instanceCreateInfo.enabledExtensionCount extensionsToRequest
    { instanceCreateInfo with
      enabledExtensionCount := enabledExtensionCount
      enabledExtensionNames := newEnabledExtensionNames }
  else instanceCreateInfo

/-- The result of `xrCreateApiLayerInstance`: how it ended, the process state, the caller's
layer-info record (the chain is edited in place) and the content of `*instance`. -/
structure CreateOut where
  outcome : Outcome
  state : State
  apiLayerInfo : Option XrApiLayerCreateInfo
  inst : XrInstance
deriving DecidableEq, Repr

/-- Lines 295-302: the cleanup attempt after the singleton failed to initialise. -/
def cleanupCalls (w : World) (h : List Event) (fn : FnPtr) (inst : XrInstance) : List Event :=
  if XR_SUCCEEDED (w.nextGetInstanceProcAddr h fn inst "xrDestroyInstance").1 then
    [ resolveEvent w h fn inst "xrDestroyInstance",
      Event.xrDestroyInstance (w.nextGetInstanceProcAddr h fn inst "xrDestroyInstance").2 inst ]
  else [resolveEvent w h fn inst "xrDestroyInstance"]

/-- Lines 271-284: the singleton (constructed if absent) after `SetGetInstanceProcAddr` and
`SetUpstreamLayers`; the upstream layers are the names of the entries after this layer's. -/
def installLayer (g : Option OpenXrApi) (nextInfo : XrApiLayerNextInfo)
    (next : List XrApiLayerNextInfo) (inst : XrInstance) : OpenXrApi :=
  { GetInstance g with
    getInstanceProcAddr := nextInfo.nextGetInstanceProcAddr
    inst := inst
    upstreamLayers := next.map (fun entry => entry.layerName) }

/-- Lines 261-307: the real creation call through the chain and the installation of the
singleton.  `nextInfo` / `next` are this layer's chain entry and its successors at that point,
`chainInfo` is the create info handed to the chain. -/
def createRealInstance (w : World) (s : State) (h : List Event)
    (instanceCreateInfo chainInfo : XrInstanceCreateInfo) (apiLayerInfo : XrApiLayerCreateInfo)
    (nextInfo : XrApiLayerNextInfo) (next : List XrApiLayerNextInfo) : CreateOut :=
  let chainApiLayerInfo := { apiLayerInfo with nextInfo := next }
  let c := chainCreateEvent w h nextInfo.nextCreateApiLayerInstance chainInfo chainApiLayerInfo
  let r := w.nextCreateApiLayerInstance h nextInfo.nextCreateApiLayerInstance chainInfo
    chainApiLayerInfo
  let edited := some { apiLayerInfo with nextInfo := nextInfo :: next }
  if r.1 = XR_SUCCESS then
    let layer := installLayer s.g_instance nextInfo next r.2
    let answer := w.layerCreateInstance (h ++ [c]) layer instanceCreateInfo
    let h1 := h ++ [c, Event.layerCreateInstance layer instanceCreateInfo answer]
    match answer with
    | LayerResult.other_exception =>
      { outcome := Outcome.threw
        state := { s with g_instance := some layer, history := h1 }
        apiLayerInfo := edited
        inst := r.2 }
    | LayerResult.runtime_error =>
      { outcome := Outcome.returned XR_ERROR_RUNTIME_FAILURE
        state :=
          { s with
            g_instance := some layer
            history := h1 ++ cleanupCalls w h1 nextInfo.nextGetInstanceProcAddr r.2 }
        apiLayerInfo := edited
        inst := r.2 }
    | LayerResult.returned result =>
      { outcome := Outcome.returned result
        state :=
          { s with
            g_instance := some layer
            history :=
              if XR_FAILED result then
                h1 ++ cleanupCalls w h1 nextInfo.nextGetInstanceProcAddr r.2
              else h1 }
        apiLayerInfo := edited
        inst := r.2 }
  else
    { outcome := Outcome.returned r.1
      state := { s with history := h ++ [c] }
      apiLayerInfo := edited
      inst := r.2 }

/-- The entry point `xrCreateApiLayerInstance` (lines 42-308).  `inst` is the content of
`*instance` before the call. -/
def xrCreateApiLayerInstance (b : Build) (w : World) (s : State)
    (instanceCreateInfo : XrInstanceCreateInfo) (apiLayerInfo : Option XrApiLayerCreateInfo)
    (inst : XrInstance) : CreateOut :=
  match validate b apiLayerInfo with
  | none =>
    { outcome := Outcome.returned XR_ERROR_INITIALIZATION_FAILED
      state := s
      apiLayerInfo := apiLayerInfo
      inst := inst }
  | some (info, nextInfo, next) =>
    let bypass := bypassDecision b w s.history instanceCreateInfo
    let h1 := s.history ++ bypass.2
    if bypass.1 then
      let chainApiLayerInfo := { info with nextInfo := next }
      let r := w.nextCreateApiLayerInstance h1 nextInfo.nextCreateApiLayerInstance
        instanceCreateInfo chainApiLayerInfo
      { outcome := Outcome.returned r.1
        state :=
          { s with
            g_bypass := nextInfo.nextGetInstanceProcAddr
            history :=
              h1 ++ [chainCreateEvent w h1 nextInfo.nextCreateApiLayerInstance
                instanceCreateInfo chainApiLayerInfo] }
        apiLayerInfo := apiLayerInfo
        inst := r.2 }
    else if instanceCreateInfo.applicationInfo.engineName = "OpenXRDeveloperTools" then
      createRealInstance w s h1 instanceCreateInfo
        (chainInstanceCreateInfo true instanceCreateInfo []) info nextInfo next
    else
      let p := probe b w h1 instanceCreateInfo info nextInfo next
      match p.extensionsToRequest with
      | none =>
        { outcome := Outcome.threw
          state := { s with history := h1 ++ p.calls }
          apiLayerInfo := some { info with nextInfo := p.nextInfo :: p.next }
          inst := inst }
      | some extensionsToRequest =>
        createRealInstance w s (h1 ++ p.calls) instanceCreateInfo
          (chainInstanceCreateInfo false instanceCreateInfo extensionsToRequest) info p.nextInfo
          p.next

/-! ## `xrDestroyInstance` and `xrGetInstanceProcAddr` -/

structure DestroyOut where
  outcome : Outcome
  state : State
deriving DecidableEq, Repr

/-- The entry point `xrDestroyInstance` (lines 311-329). -/
def xrDestroyInstance (w : World) (s : State) (inst : XrInstance) : DestroyOut :=
  let layer := GetInstance s.g_instance
  let answer := w.layerDestroyInstance s.history layer inst
  let h1 := s.history ++ [Event.layerDestroyInstance layer inst answer]
  match answer with
  | LayerResult.returned result =>
    { outcome := Outcome.returned result
      state :=
        { s with
          g_instance := if XR_SUCCEEDED result then ResetInstance else some layer
          history := h1 } }
  | LayerResult.runtime_error =>
    { outcome := Outcome.returned XR_ERROR_RUNTIME_FAILURE
      state := { s with g_instance := some layer, history := h1 } }
  | LayerResult.other_exception =>
    { outcome := Outcome.threw
      state := { s with g_instance := some layer, history := h1 } }

structure ProcAddrOut where
  outcome : Outcome
  function : FnPtr
  state : State
deriving DecidableEq, Repr

/-- The entry point `xrGetInstanceProcAddr` (lines 332-350).  `function` is the content of
`*function` before the call. -/
def xrGetInstanceProcAddr (w : World) (s : State) (inst : XrInstance) (name : String)
    (function : FnPtr) : ProcAddrOut :=
  if s.g_bypass ≠ 0 then
    { outcome := Outcome.returned (w.nextGetInstanceProcAddr s.history s.g_bypass inst name).1
      function := (w.nextGetInstanceProcAddr s.history s.g_bypass inst name).2
      state := { s with history := s.history ++ [resolveEvent w s.history s.g_bypass inst name] } }
  else
    let layer := GetInstance s.g_instance
    let answer := w.layerGetInstanceProcAddr s.history layer inst name
    let h1 := s.history ++ [Event.layerGetInstanceProcAddr layer inst name answer]
    match answer with
    | LayerResult.returned r =>
      { outcome := Outcome.returned r.1
        function := r.2
        state := { s with g_instance := some layer, history := h1 } }
    | LayerResult.runtime_error =>
      { outcome := Outcome.returned XR_ERROR_RUNTIME_FAILURE
        function := function
        state := { s with g_instance := some layer, history := h1 } }
    | LayerResult.other_exception =>
      { outcome := Outcome.threw
        function := function
        state := { s with g_instance := some layer, history := h1 } }

/-! ## Reading the history -/

/-- The calls made between two states of the history. -/
def newEvents (before after : List Event) : List Event := after.drop before.length

/-- Is the event a creation call into the chain? -/
def Event.isChainCreate : Event → Bool
  | Event.nextCreateApiLayerInstance _ _ _ _ _ => true
  | _ => false

/-- Is the event a call of the singleton's instance-initialization routine? -/
def Event.isLayerCreate : Event → Bool
  | Event.layerCreateInstance _ _ _ => true
  | _ => false

/-- Is the event one of the queries made on the dummy instance (or a cleanup call)? -/
def Event.isQuery : Event → Bool
  | Event.nextGetInstanceProcAddr _ _ _ _ _ => true
  | Event.xrEnumerateInstanceExtensionProperties _ _ _ _ _ => true
  | Event.xrGetSystem _ _ _ _ _ => true
  | Event.xrGetSystemProperties _ _ _ _ _ => true
  | Event.xrDestroyInstance _ _ => true
  | _ => false

/-- Is the event one of the two registry accesses? -/
def Event.isRegistry : Event → Bool
  | Event.RegSetString _ _ _ => true
  | Event.RegGetDword _ _ _ => true
  | _ => false

/-- The creation calls into the chain, in order. -/
def chainCreates (events : List Event) : List Event := events.filter Event.isChainCreate

/-- The calls of a resolved instance-destruction entry point on the handle `inst`. -/
def destroyCalls (inst : XrInstance) (events : List Event) : List Event :=
  events.filter fun e =>
    match e with
    | Event.xrDestroyInstance _ handle => handle == inst
    | _ => false

def sampleBuild : Build :=
  { LayerName := "XR_APILAYER_MBUCCHIA_toolkit"
    RegPrefix := "SOFTWARE\\OpenXR_Toolkit"
    XR_LOADER_INTERFACE_STRUCT_API_LAYER_CREATE_INFO := 4
    XR_API_LAYER_CREATE_INFO_STRUCT_VERSION := 1
    sizeof_XrApiLayerCreateInfo := 544
    XR_LOADER_INTERFACE_STRUCT_API_LAYER_NEXT_INFO := 5
    XR_API_LAYER_NEXT_INFO_STRUCT_VERSION := 1
    sizeof_XrApiLayerNextInfo := 296
    CHECK_XRCMD := XR_SUCCEEDED }

def sampleEntry (layerName : String) (nextGetInstanceProcAddr nextCreateApiLayerInstance : FnPtr) :
    XrApiLayerNextInfo :=
  { structType := 5
    structVersion := 1
    structSize := 296
    layerName := layerName
    nextGetInstanceProcAddr := nextGetInstanceProcAddr
    nextCreateApiLayerInstance := nextCreateApiLayerInstance }

def sampleSelf : XrApiLayerNextInfo := sampleEntry "XR_APILAYER_MBUCCHIA_toolkit" 11 12

/-- The entries upstream of this layer: a Vive layer, then the Ultraleap layer. -/
def sampleUpstream : List XrApiLayerNextInfo :=
  [ sampleEntry "XR_APILAYER_VIVE_handtracking" 21 22,
    sampleEntry "XR_APILAYER_ULTRALEAP_hand_tracking" 31 32 ]

/-- An upstream chain without any Vive or Ultraleap layer. -/
def sampleCleanUpstream : List XrApiLayerNextInfo := [sampleEntry "XR_APILAYER_NOVENDOR_test" 41 42]

def sampleLayerInfo (next : List XrApiLayerNextInfo) : XrApiLayerCreateInfo :=
  { structType := 4
    structVersion := 1
    structSize := 544
    loaderInstance := 1
    settings_file_location := ""
    nextInfo := sampleSelf :: next }

def sampleCreateInfo (applicationName engineName : String) (extensions : List String) :
    XrInstanceCreateInfo :=
  { createFlags := 0
    applicationInfo :=
      { applicationName := applicationName
        applicationVersion := 1
        engineName := engineName
        engineVersion := 1
        apiVersion := 1 }
    enabledApiLayerCount := 0
    enabledApiLayerNames := []
    enabledExtensionCount := extensions.length
    enabledExtensionNames := extensions }

/-- An environment in which the registry holds `bypass = 1` for the application "Foo" only, the
first creation call into the chain answers `firstCreate` and the later ones succeed, the runtime
reports two extensions, the singleton's initialization answers `initAnswer`, and the resolver
answers `cleanupResult` once the singleton's initialization was called. -/
def sampleWorld (firstCreate : XrResult) (initAnswer : LayerResult XrResult)
    (cleanupResult : XrResult) : World :=
  { moduleFileName := "C:\\Games\\game.exe"
    RegGetDword := fun _ subKey _ =>
      if subKey = "SOFTWARE\\OpenXR_Toolkit\\Foo" then some 1 else none
    nextCreateApiLayerInstance := fun h _ _ _ =>
      if (chainCreates h).isEmpty then (firstCreate, 100) else (XR_SUCCESS, 101)
    nextGetInstanceProcAddr := fun h _ _ name =>
      if h.any Event.isLayerCreate then (cleanupResult, 900) else (XR_SUCCESS, name.length)
    xrEnumerateInstanceExtensionProperties := fun _ _ capacity =>
      (XR_SUCCESS, 2, if capacity = 0 then [] else ["XR_EXT_hand_tracking", "XR_KHR_D3D11_enable"])
    xrGetSystem := fun _ _ _ _ => (XR_SUCCESS, 1)
    xrGetSystemProperties := fun _ _ _ _ => (XR_SUCCESS, "Windows Mixed Reality")
    layerCreateInstance := fun _ _ _ => initAnswer
    layerDestroyInstance := fun _ _ _ => LayerResult.returned XR_SUCCESS
    layerGetInstanceProcAddr := fun _ _ _ _ => LayerResult.returned (XR_SUCCESS, 5) }

/-- The state of a process that has not created anything yet. -/
def initialState : State := { g_bypass := 0, g_instance := none, history := [] }

/-! # Verification -/

theorem newEvents_append (h evs : List Event) : newEvents h (h ++ evs) = evs := by
  simp [newEvents]

theorem newEvents_self (h : List Event) : newEvents h h = [] := by
  simp [newEvents]

theorem validate_some {b : Build} {a : Option XrApiLayerCreateInfo} {info : XrApiLayerCreateInfo}
    {nextInfo : XrApiLayerNextInfo} {next : List XrApiLayerNextInfo}
    (h : validate b a = some (info, nextInfo, next)) :
    a = some info ∧ info.nextInfo = nextInfo :: next ∧ nextInfo.nextGetInstanceProcAddr ≠ 0 ∧
      nextInfo.nextCreateApiLayerInstance ≠ 0 := by
  cases a with
  | none => simp [validate] at h
  | some x =>
    simp only [validate] at h
    split at h
    · cases h
    · split at h
      · cases h
      · rename_i ni nx hni
        split at h
        · cases h
        · rename_i hcond
          simp only [Option.some.injEq, Prod.mk.injEq] at h
          obtain ⟨rfl, rfl, rfl⟩ := h
          simp only [not_or, not_not] at hcond
          exact ⟨rfl, hni, hcond.2.2.2.2.1, hcond.2.2.2.2.2⟩

/-! ### The splice loop -/

theorem scrubLoop_fst_layerName (next : List XrApiLayerNextInfo) :
    ∀ (info : XrApiLayerNextInfo) (exts : List String),
      (scrubLoop info next exts).1.layerName = info.layerName := by
  induction next with
  | nil => intro info exts; simp [scrubLoop]
  | cons n rest ih =>
    intro info exts
    by_cases hv : isViveLayer n.layerName = true
    · simp only [scrubLoop, hv, if_true]
      rw [ih]
    · simp [scrubLoop, hv]

theorem scrubLoop_next_clean (next : List XrApiLayerNextInfo) :
    ∀ (info : XrApiLayerNextInfo) (exts : List String),
      ∀ e ∈ (scrubLoop info next exts).2.1, isViveLayer e.layerName = false := by
  induction next with
  | nil => intro info exts e he; simp [scrubLoop] at he
  | cons n rest ih =>
    intro info exts e he
    by_cases hv : isViveLayer n.layerName = true
    · simp only [scrubLoop, hv, if_true] at he
      exact ih _ _ e he
    · simp only [scrubLoop, hv] at he
      simp only [Bool.false_eq_true, if_false, List.mem_cons] at he
      rcases he with he | he
      · rw [he, scrubLoop_fst_layerName]
        simpa using hv
      · exact ih _ _ e he

theorem scrubLoop_clean (next : List XrApiLayerNextInfo) :
    ∀ (info : XrApiLayerNextInfo) (exts : List String),
      (∀ e ∈ next, isViveLayer e.layerName = false) →
        (scrubLoop info next exts).1 = info ∧ (scrubLoop info next exts).2.1 = next := by
  induction next with
  | nil => intro info exts _; simp [scrubLoop]
  | cons n rest ih =>
    intro info exts hclean
    have hn : isViveLayer n.layerName = false := hclean n (List.mem_cons_self _ _)
    have hrest : ∀ e ∈ rest, isViveLayer e.layerName = false :=
      fun e he => hclean e (List.mem_cons_of_mem _ he)
    simp only [scrubLoop, hn, Bool.false_eq_true, if_false, true_and, List.cons.injEq]
    exact ih _ _ hrest

theorem orderedPut_perm (x : String) (l : List String) : (orderedPut x l).Perm (x :: l) := by
  induction l with
  | nil => simp [orderedPut]
  | cons y ys ih =>
    simp only [orderedPut]
    split
    · exact List.Perm.refl _
    · exact (List.Perm.cons y ih).trans (List.Perm.swap x y ys)

theorem mem_setInsert {x y : String} {l : List String} :
    y ∈ setInsert x l ↔ y = x ∨ y ∈ l := by
  unfold setInsert
  split
  · rename_i h
    constructor
    · exact Or.inr
    · rintro (rfl | h') <;> assumption
  · rw [(orderedPut_perm x l).mem_iff, List.mem_cons]

theorem setInsert_nodup {x : String} {l : List String} (h : l.Nodup) :
    (setInsert x l).Nodup := by
  unfold setInsert
  split
  · exact h
  · rename_i hx
    exact (orderedPut_perm x l).nodup_iff.mpr (List.nodup_cons.mpr ⟨hx, h⟩)

theorem setInsert_of_mem {x : String} {l : List String} (h : x ∈ l) : setInsert x l = l := by
  simp [setInsert, h]

theorem collectExtensions_nodup (names : List String) :
    ∀ exts : List String, exts.Nodup → (collectExtensions names exts).Nodup := by
  induction names with
  | nil => intro exts h; simpa [collectExtensions] using h
  | cons n ns ih =>
    intro exts h
    simp only [collectExtensions]
    split
    · exact ih _ (setInsert_nodup h)
    · exact ih _ h

theorem scrubLoop_exts_nodup (next : List XrApiLayerNextInfo) :
    ∀ (info : XrApiLayerNextInfo) (exts : List String), exts.Nodup →
      (scrubLoop info next exts).2.2.Nodup := by
  induction next with
  | nil => intro info exts h; simpa [scrubLoop] using h
  | cons n rest ih =>
    intro info exts h
    by_cases hv : isViveLayer n.layerName = true
    · simp only [scrubLoop, hv, if_true]
      exact ih _ _ h
    · simp only [scrubLoop, hv, Bool.false_eq_true, if_false]
      split
      · exact ih _ _ (setInsert_nodup h)
      · exact ih _ _ h

theorem scrubLoop_exts (next : List XrApiLayerNextInfo) :
    ∀ (info : XrApiLayerNextInfo) (exts : List String),
      (scrubLoop info next exts).2.2 =
        if ∃ e ∈ next, e.layerName = "XR_APILAYER_ULTRALEAP_hand_tracking" then
          setInsert "XR_EXT_hand_tracking" exts
        else exts := by
  induction next with
  | nil => intro info exts; simp [scrubLoop]
  | cons n rest ih =>
    intro info exts
    by_cases hu : n.layerName = "XR_APILAYER_ULTRALEAP_hand_tracking"
    · have hv : isViveLayer "XR_APILAYER_ULTRALEAP_hand_tracking" = false := by decide
      have hex : ∃ e ∈ n :: rest, e.layerName = "XR_APILAYER_ULTRALEAP_hand_tracking" :=
        ⟨n, List.mem_cons_self _ _, hu⟩
      simp only [scrubLoop, hu, hv, Bool.false_eq_true, if_false, if_true]
      rw [ih, if_pos hex]
      split
      · exact setInsert_of_mem (mem_setInsert.mpr (Or.inl rfl))
      · rfl
    · have hiff : (∃ e ∈ n :: rest, e.layerName = "XR_APILAYER_ULTRALEAP_hand_tracking") ↔
          ∃ e ∈ rest, e.layerName = "XR_APILAYER_ULTRALEAP_hand_tracking" := by
        simp [hu]
      by_cases hv : isViveLayer n.layerName = true
      · simp only [scrubLoop, hv, if_true]
        rw [ih]
        simp only [hiff]
      · simp only [scrubLoop, hv, Bool.false_eq_true, if_false, hu]
        rw [ih]
        simp only [hiff]

/-! ### The calls of the probing block -/

theorem resolveProbeFns_isQuery (b : Build) (w : World) (h : List Event) (fn : FnPtr)
    (d : XrInstance) : ∀ e ∈ (resolveProbeFns b w h fn d).2, e.isQuery = true := by
  intro e he
  simp only [resolveProbeFns, resolveEvent] at he
  split_ifs at he <;> simp at he <;> rcases he with rfl | he <;> (try rfl)
  all_goals (rcases he with rfl | he <;> (try rfl))
  all_goals (rcases he with rfl | he <;> (try rfl))
  all_goals (subst he; rfl)

theorem resolveProbeFns_none (b : Build) (w : World) (h : List Event) (fn : FnPtr)
    (d : XrInstance) (hn : (resolveProbeFns b w h fn d).1 = none) :
    (resolveProbeFns b w h fn d).2 ≠ [] := by
  simp only [resolveProbeFns] at hn ⊢
  split_ifs at hn ⊢ <;> simp at hn ⊢

theorem queryExtensions_isQuery (b : Build) (w : World) (h : List Event) (fn : FnPtr)
    (exts : List String) : ∀ e ∈ (queryExtensions b w h fn exts).2, e.isQuery = true := by
  intro e he
  simp only [queryExtensions, enumerateEvent] at he
  split_ifs at he <;> simp at he
  · subst he; rfl
  · rcases he with rfl | rfl <;> rfl
  · rcases he with rfl | rfl <;> rfl

theorem queryExtensions_none (b : Build) (w : World) (h : List Event) (fn : FnPtr)
    (exts : List String) (hn : (queryExtensions b w h fn exts).1 = none) :
    (queryExtensions b w h fn exts).2 ≠ [] := by
  simp only [queryExtensions] at hn ⊢
  split_ifs at hn ⊢ <;> simp at hn ⊢

theorem queryExtensions_nodup (b : Build) (w : World) (h : List Event) (fn : FnPtr)
    (exts out : List String) (hx : exts.Nodup)
    (hq : (queryExtensions b w h fn exts).1 = some out) : out.Nodup := by
  simp only [queryExtensions] at hq
  split_ifs at hq <;> simp at hq
  · subst hq; exact collectExtensions_nodup _ _ hx
  · subst hq; exact hx

theorem queryExtensions_null (b : Build) (w : World) (h : List Event) (exts : List String) :
    queryExtensions b w h 0 exts = (some exts, []) := by
  simp [queryExtensions]

theorem viveRuntimeWorkaround_isQuery (b : Build) (w : World) (h : List Event) (fns : ProbeFns)
    (d : XrInstance) : ∀ e ∈ (viveRuntimeWorkaround b w h fns d).2, e.isQuery = true := by
  intro e he
  simp only [viveRuntimeWorkaround] at he
  split_ifs at he <;> simp at he
  all_goals first
    | (subst he; rfl)
    | (rcases he with rfl | rfl <;> rfl)

theorem viveRuntimeWorkaround_none (b : Build) (w : World) (h : List Event) (fns : ProbeFns)
    (d : XrInstance) (hn : (viveRuntimeWorkaround b w h fns d).1 = none) :
    (viveRuntimeWorkaround b w h fns d).2 ≠ [] := by
  simp only [viveRuntimeWorkaround] at hn ⊢
  split_ifs at hn ⊢
  simp at hn ⊢

theorem destroyDummy_isQuery (fn : FnPtr) (d : XrInstance) :
    ∀ e ∈ destroyDummy fn d, e.isQuery = true := by
  intro e he
  simp only [destroyDummy] at he
  split_ifs at he
  · simp at he
    subst he; rfl
  · simp at he

theorem cleanupCalls_isQuery (w : World) (h : List Event) (fn : FnPtr) (inst : XrInstance) :
    ∀ e ∈ cleanupCalls w h fn inst, e.isQuery = true := by
  intro e he
  simp only [cleanupCalls, resolveEvent] at he
  split_ifs at he <;> simp at he
  · rcases he with rfl | rfl <;> rfl
  · subst he; rfl

theorem probeFnsOf_isQuery (b : Build) (w : World) (h : List Event) (fn : FnPtr) (r : XrResult)
    (d : XrInstance) : ∀ e ∈ (probeFnsOf b w h fn r d).2, e.isQuery = true := by
  intro e he
  simp only [probeFnsOf] at he
  split_ifs at he
  · exact resolveProbeFns_isQuery b w h fn d e he
  · simp at he

theorem probeFnsOf_none (b : Build) (w : World) (h : List Event) (fn : FnPtr) (r : XrResult)
    (d : XrInstance) (hn : (probeFnsOf b w h fn r d).1 = none) :
    (probeFnsOf b w h fn r d).2 ≠ [] := by
  simp only [probeFnsOf] at hn ⊢
  split_ifs at hn ⊢
  exact resolveProbeFns_none b w h fn d hn

theorem afterDummyCreate_isQuery (b : Build) (w : World) (h : List Event) (fn : FnPtr)
    (r : XrResult) (d : XrInstance) (exts : List String) :
    ∀ e ∈ (afterDummyCreate b w h fn r d exts).2, e.isQuery = true := by
  intro e he
  simp only [afterDummyCreate] at he
  have h1 := probeFnsOf_isQuery b w h fn r d
  split at he
  · exact h1 e he
  · rename_i fns _
    have h2 := queryExtensions_isQuery b w (h ++ (probeFnsOf b w h fn r d).2)
      fns.xrEnumerateInstanceExtensionProperties exts
    split at he
    · simp only [List.mem_append] at he
      rcases he with he | he
      · exact h1 e he
      · exact h2 e he
    · have h3 := viveRuntimeWorkaround_isQuery b w
        (h ++ (probeFnsOf b w h fn r d).2 ++
          (queryExtensions b w (h ++ (probeFnsOf b w h fn r d).2)
            fns.xrEnumerateInstanceExtensionProperties exts).2) fns d
      split at he
      · simp only [List.mem_append] at he
        rcases he with (he | he) | he
        · exact h1 e he
        · exact h2 e he
        · exact h3 e he
      · simp only [List.mem_append] at he
        rcases he with ((he | he) | he) | he
        · exact h1 e he
        · exact h2 e he
        · exact h3 e he
        · exact destroyDummy_isQuery _ _ e he

theorem afterDummyCreate_none (b : Build) (w : World) (h : List Event) (fn : FnPtr)
    (r : XrResult) (d : XrInstance) (exts : List String)
    (hn : (afterDummyCreate b w h fn r d exts).1 = none) :
    (afterDummyCreate b w h fn r d exts).2 ≠ [] := by
  unfold afterDummyCreate at hn ⊢
  cases h1 : (probeFnsOf b w h fn r d).1 with
  | none =>
    simp only [h1]
    exact probeFnsOf_none b w h fn r d h1
  | some fns =>
    simp only [h1] at hn ⊢
    cases h2 : (queryExtensions b w (h ++ (probeFnsOf b w h fn r d).2)
        fns.xrEnumerateInstanceExtensionProperties exts).1 with
    | none =>
      simp only [h2]
      intro hnil
      exact queryExtensions_none b w _ _ exts h2 (List.append_eq_nil.mp hnil).2
    | some out =>
      simp only [h2] at hn ⊢
      cases h3 : (viveRuntimeWorkaround b w
          (h ++ (probeFnsOf b w h fn r d).2 ++
            (queryExtensions b w (h ++ (probeFnsOf b w h fn r d).2)
              fns.xrEnumerateInstanceExtensionProperties exts).2) fns d).1 with
      | none =>
        simp only [h3]
        intro hnil
        exact viveRuntimeWorkaround_none b w _ fns d h3 (List.append_eq_nil.mp hnil).2
      | some x =>
        simp only [h3] at hn
        cases hn

theorem afterDummyCreate_nodup (b : Build) (w : World) (h : List Event) (fn : FnPtr)
    (r : XrResult) (d : XrInstance) (exts out : List String) (hx : exts.Nodup)
    (ho : (afterDummyCreate b w h fn r d exts).1 = some out) : out.Nodup := by
  simp only [afterDummyCreate] at ho
  split at ho
  · simp at ho
  · rename_i fns h1
    split at ho
    · simp at ho
    · rename_i q h2
      split at ho
      · simp at ho
      · simp only [Option.some.injEq] at ho
        subst ho
        exact queryExtensions_nodup b w _ _ exts q hx h2

theorem afterDummyCreate_failed (b : Build) (w : World) (h : List Event) (fn : FnPtr)
    (r : XrResult) (d : XrInstance) (exts : List String) (hr : r ≠ XR_SUCCESS) :
    afterDummyCreate b w h fn r d exts = (some exts, []) := by
  simp [afterDummyCreate, probeFnsOf, hr, queryExtensions, viveRuntimeWorkaround, destroyDummy]

/-! ### The extension injector -/

theorem writeSlots_fill (exts : List String) :
    ∀ (pre : List String) (k : Nat), pre.length + exts.length < 2 ^ 32 →
      writeSlots (pre ++ List.replicate (exts.length + k) "") pre.length exts =
        pre ++ exts ++ List.replicate k "" := by
  induction exts with
  | nil => intro pre k _; simp [writeSlots]
  | cons e es ih =>
    intro pre k hfit
    simp only [List.length_cons] at hfit
    have hmod : (pre.length + 1) % 2 ^ 32 = (pre ++ [e]).length := by
      rw [Nat.mod_eq_of_lt (by omega)]; simp
    have hset : (pre ++ List.replicate (es.length + 1 + k) "").set pre.length e =
        (pre ++ [e]) ++ List.replicate (es.length + k) "" := by
      have hrep : List.replicate (es.length + 1 + k) "" = "" :: List.replicate (es.length + k) "" := by
        rw [show es.length + 1 + k = (es.length + k) + 1 by omega, List.replicate_succ]
      rw [hrep, List.set_append_right _ _ (le_refl _)]
      simp
    simp only [writeSlots, List.length_cons]
    rw [hset, hmod, ih (pre ++ [e]) k (by simp; omega)]
    simp

theorem chainInstanceCreateInfo_eq (instanceCreateInfo : XrInstanceCreateInfo)
    (exts : List String)
    (hcount : instanceCreateInfo.enabledExtensionCount =
      instanceCreateInfo.enabledExtensionNames.length)
    (hfit : instanceCreateInfo.enabledExtensionCount + exts.length < 2 ^ 32) :
    chainInstanceCreateInfo false instanceCreateInfo exts =
      { instanceCreateInfo with
        enabledExtensionCount := instanceCreateInfo.enabledExtensionCount + exts.length
        enabledExtensionNames := instanceCreateInfo.enabledExtensionNames ++ exts } := by
  by_cases hnil : exts = []
  · subst hnil
    simp [chainInstanceCreateInfo]
  · have h1 : exts.length % 2 ^ 32 = exts.length := Nat.mod_eq_of_lt (by omega)
    have h2 : (instanceCreateInfo.enabledExtensionCount + exts.length) % 2 ^ 32 =
        instanceCreateInfo.enabledExtensionCount + exts.length := Nat.mod_eq_of_lt hfit
    have hcpy : memcpy (List.replicate (instanceCreateInfo.enabledExtensionCount + exts.length) "")
        instanceCreateInfo.enabledExtensionNames instanceCreateInfo.enabledExtensionCount =
        instanceCreateInfo.enabledExtensionNames ++ List.replicate (exts.length + 0) "" := by
      simp [memcpy, hcount]
    have hw := writeSlots_fill exts instanceCreateInfo.enabledExtensionNames 0
      (by rw [← hcount]; exact hfit)
    simp only [chainInstanceCreateInfo, hnil, ne_eq, not_false_eq_true, and_self, if_true, h1, h2,
      hcpy]
    rw [hcount, hw]
    simp

/-- C3 (amended). On the probing path the create info of the real creation call is computed from
the caller's create info and the set `extensionsToRequest`.  When the caller's count is the
length of its array and the new count fits in 32 bits, the extension list passed is the caller's
list followed by the names of the set: the count passed is its length, it contains every
requested name and every name of the set, a requested name occurs in it twice when it is also in
the set and once otherwise, and it has no repeated name when no requested name is in the set. -/
theorem chainInstanceCreateInfo_extensions (instanceCreateInfo : XrInstanceCreateInfo)
    (extensionsToRequest : List String)
    (hcount : instanceCreateInfo.enabledExtensionCount =
      instanceCreateInfo.enabledExtensionNames.length)
    (hfit : instanceCreateInfo.enabledExtensionCount + extensionsToRequest.length < 2 ^ 32)
    (hrequested : instanceCreateInfo.enabledExtensionNames.Nodup)
    (hset : extensionsToRequest.Nodup) :
    (chainInstanceCreateInfo false instanceCreateInfo extensionsToRequest).enabledExtensionNames =
        instanceCreateInfo.enabledExtensionNames ++ extensionsToRequest ∧
      (chainInstanceCreateInfo false instanceCreateInfo extensionsToRequest).enabledExtensionCount =
        (chainInstanceCreateInfo false instanceCreateInfo
          extensionsToRequest).enabledExtensionNames.length ∧
      (∀ name ∈ instanceCreateInfo.enabledExtensionNames,
        name ∈ (chainInstanceCreateInfo false instanceCreateInfo
          extensionsToRequest).enabledExtensionNames) ∧
      (∀ name ∈ extensionsToRequest,
        name ∈ (chainInstanceCreateInfo false instanceCreateInfo
          extensionsToRequest).enabledExtensionNames) ∧
      (∀ name ∈ instanceCreateInfo.enabledExtensionNames,
        (chainInstanceCreateInfo false instanceCreateInfo
          extensionsToRequest).enabledExtensionNames.count name =
            if name ∈ extensionsToRequest then 2 else 1) ∧
      ((∀ name ∈ instanceCreateInfo.enabledExtensionNames, name ∉ extensionsToRequest) →
        (chainInstanceCreateInfo false instanceCreateInfo
          extensionsToRequest).enabledExtensionNames.Nodup) := by
  rw [chainInstanceCreateInfo_eq instanceCreateInfo extensionsToRequest hcount hfit]
  refine ⟨rfl, ?_, ?_, ?_, ?_, ?_⟩
  · simp [hcount]
  · intro name h; exact List.mem_append_left _ h
  · intro name h; exact List.mem_append_right _ h
  · intro name h
    simp only [List.count_append, List.count_eq_one_of_mem hrequested h]
    split
    · rename_i hm; rw [List.count_eq_one_of_mem hset hm]
    · rename_i hm; rw [List.count_eq_zero_of_not_mem hm]
  · intro hdisj
    exact List.Nodup.append hrequested hset (fun a h1 h2 => hdisj a h1 h2)

theorem bypassDecision_bypass (b : Build) (w : World) (h : List Event) (ci : XrInstanceCreateInfo)
    (hb : ci.applicationInfo.engineName = "Chromium" ∨ bypassFlag b w h ci ≠ 0) :
    (bypassDecision b w h ci).1 = true := by
  unfold bypassDecision
  split
  · rfl
  · rcases hb with hb | hb
    · contradiction
    · simpa using hb

theorem bypassDecision_pass (b : Build) (w : World) (h : List Event) (ci : XrInstanceCreateInfo)
    (hc : ci.applicationInfo.engineName ≠ "Chromium") (hflag : bypassFlag b w h ci = 0) :
    bypassDecision b w h ci =
      (false,
        [ recordModule b w ci,
          Event.RegGetDword (baseKey b ci) "bypass"
            (w.RegGetDword (h ++ [recordModule b w ci]) (baseKey b ci) "bypass") ]) := by
  simp [bypassDecision, hc, hflag]

theorem bypassDecision_isRegistry (b : Build) (w : World) (h : List Event)
    (ci : XrInstanceCreateInfo) : ∀ e ∈ (bypassDecision b w h ci).2, e.isRegistry = true := by
  intro e he
  simp only [bypassDecision, recordModule] at he
  split_ifs at he <;> simp at he
  · subst he; rfl
  · rcases he with rfl | rfl <;> rfl

/-- C1. A creation request whose layer-info record is malformed (record absent, wrong type tag,
wrong struct version, wrong size, next-info absent, next-info with a wrong type tag, version or
size, next-info layer name different from this layer's name, null next-level resolver, null
next-level create function) returns XR_ERROR_INITIALIZATION_FAILED and leaves everything as it
was: the history gets no call (no call into the chain, no registry write), `g_bypass` and the
singleton slot are unchanged, and so are the caller's record and `*instance`. -/
theorem malformed_envelope_rejected (b : Build) (w : World) (s : State)
    (instanceCreateInfo : XrInstanceCreateInfo) (apiLayerInfo : Option XrApiLayerCreateInfo)
    (inst : XrInstance)
    (hbad : apiLayerInfo = none ∨
      ∃ info, apiLayerInfo = some info ∧
        (info.structType ≠ b.XR_LOADER_INTERFACE_STRUCT_API_LAYER_CREATE_INFO ∨
          info.structVersion ≠ b.XR_API_LAYER_CREATE_INFO_STRUCT_VERSION ∨
          info.structSize ≠ b.sizeof_XrApiLayerCreateInfo ∨
          info.nextInfo = [] ∨
          ∃ nextInfo next, info.nextInfo = nextInfo :: next ∧
            (nextInfo.structType ≠ b.XR_LOADER_INTERFACE_STRUCT_API_LAYER_NEXT_INFO ∨
              nextInfo.structVersion ≠ b.XR_API_LAYER_NEXT_INFO_STRUCT_VERSION ∨
              nextInfo.structSize ≠ b.sizeof_XrApiLayerNextInfo ∨
              nextInfo.layerName ≠ b.LayerName ∨
              nextInfo.nextGetInstanceProcAddr = 0 ∨
              nextInfo.nextCreateApiLayerInstance = 0))) :
    xrCreateApiLayerInstance b w s instanceCreateInfo apiLayerInfo inst =
      { outcome := Outcome.returned XR_ERROR_INITIALIZATION_FAILED
        state := s
        apiLayerInfo := apiLayerInfo
        inst := inst } := by
  have hval : validate b apiLayerInfo = none := by
    rcases hbad with rfl | ⟨info, rfl, hinfo⟩
    · rfl
    · simp only [validate]
      by_cases h1 : info.structType ≠ b.XR_LOADER_INTERFACE_STRUCT_API_LAYER_CREATE_INFO ∨
          info.structVersion ≠ b.XR_API_LAYER_CREATE_INFO_STRUCT_VERSION ∨
          info.structSize ≠ b.sizeof_XrApiLayerCreateInfo
      · rw [if_pos h1]
      · rw [if_neg h1]
        rcases hinfo with h | h | h | h | ⟨nextInfo, next, hn, h⟩
        · exact absurd (Or.inl h) h1
        · exact absurd (Or.inr (Or.inl h)) h1
        · exact absurd (Or.inr (Or.inr h)) h1
        · rw [h]
        · rw [hn]
          simp only
          rw [if_pos h]
  simp only [xrCreateApiLayerInstance, hval]

/-- C2. A valid create-instance call whose bypass condition holds (engine name "Chromium", or a
non-zero `bypass` value in the registry for the application) stores its chain entry's next-level
resolver in `g_bypass` and does not touch the singleton slot.  In every later state that still
holds that resolver, whatever its singleton slot and history, `xrGetInstanceProcAddr` returns for
every handle and name exactly the result code and function the captured resolver answers, the
only call it makes is that call of the captured resolver (the singleton's resolution routine is
not called), and the singleton slot is unchanged. -/
theorem bypass_resolver_captured (b : Build) (w : World) (s : State)
    (instanceCreateInfo : XrInstanceCreateInfo) (apiLayerInfo : Option XrApiLayerCreateInfo)
    (inst : XrInstance) (info : XrApiLayerCreateInfo) (nextInfo : XrApiLayerNextInfo)
    (next : List XrApiLayerNextInfo)
    (hvalid : validate b apiLayerInfo = some (info, nextInfo, next))
    (hbypass : instanceCreateInfo.applicationInfo.engineName = "Chromium" ∨
      bypassFlag b w s.history instanceCreateInfo ≠ 0) :
    (xrCreateApiLayerInstance b w s instanceCreateInfo apiLayerInfo inst).state.g_bypass =
        nextInfo.nextGetInstanceProcAddr ∧
      (xrCreateApiLayerInstance b w s instanceCreateInfo apiLayerInfo inst).state.g_instance =
        s.g_instance ∧
      ∀ later : State,
        later.g_bypass =
          (xrCreateApiLayerInstance b w s instanceCreateInfo apiLayerInfo inst).state.g_bypass →
        ∀ (handle : XrInstance) (name : String) (function : FnPtr),
          xrGetInstanceProcAddr w later handle name function =
            { outcome := Outcome.returned
                (w.nextGetInstanceProcAddr later.history nextInfo.nextGetInstanceProcAddr handle
                  name).1
              function :=
                (w.nextGetInstanceProcAddr later.history nextInfo.nextGetInstanceProcAddr handle
                  name).2
              state :=
                { later with
                  history := later.history ++
                    [Event.nextGetInstanceProcAddr nextInfo.nextGetInstanceProcAddr handle name
                      (w.nextGetInstanceProcAddr later.history nextInfo.nextGetInstanceProcAddr
                        handle name).1
                      (w.nextGetInstanceProcAddr later.history nextInfo.nextGetInstanceProcAddr
                        handle name).2] } } := by
  have hb := bypassDecision_bypass b w s.history instanceCreateInfo hbypass
  have hnz := (validate_some hvalid).2.2.1
  have hg : (xrCreateApiLayerInstance b w s instanceCreateInfo apiLayerInfo inst).state.g_bypass =
      nextInfo.nextGetInstanceProcAddr := by
    simp only [xrCreateApiLayerInstance, hvalid, hb, if_true]
  refine ⟨hg, ?_, ?_⟩
  · simp only [xrCreateApiLayerInstance, hvalid, hb, if_true]
  · intro later hlater handle name function
    rw [hg] at hlater
    simp only [xrGetInstanceProcAddr, hlater, ne_eq, hnz, not_false_eq_true, if_true, resolveEvent]

theorem Event.isQuery_not_chainCreate {e : Event} (h : e.isQuery = true) :
    e.isChainCreate = false := by
  cases e <;> simp_all [Event.isQuery, Event.isChainCreate]

theorem Event.isQuery_not_layerCreate {e : Event} (h : e.isQuery = true) :
    e.isLayerCreate = false := by
  cases e <;> simp_all [Event.isQuery, Event.isLayerCreate]

theorem Event.isRegistry_not_chainCreate {e : Event} (h : e.isRegistry = true) :
    e.isChainCreate = false := by
  cases e <;> simp_all [Event.isRegistry, Event.isChainCreate]

theorem Event.isRegistry_not_layerCreate {e : Event} (h : e.isRegistry = true) :
    e.isLayerCreate = false := by
  cases e <;> simp_all [Event.isRegistry, Event.isLayerCreate]

theorem create_fast (b : Build) (w : World) (s : State) (ci : XrInstanceCreateInfo)
    (apiLayerInfo : Option XrApiLayerCreateInfo) (inst : XrInstance)
    (info : XrApiLayerCreateInfo) (nextInfo : XrApiLayerNextInfo)
    (next : List XrApiLayerNextInfo)
    (hvalid : validate b apiLayerInfo = some (info, nextInfo, next))
    (hflag : bypassFlag b w s.history ci = 0)
    (hfast : ci.applicationInfo.engineName = "OpenXRDeveloperTools") :
    xrCreateApiLayerInstance b w s ci apiLayerInfo inst =
      createRealInstance w s (s.history ++ (bypassDecision b w s.history ci).2) ci ci info
        nextInfo next := by
  have hc : ci.applicationInfo.engineName ≠ "Chromium" := by rw [hfast]; decide
  have hp := bypassDecision_pass b w s.history ci hc hflag
  simp only [xrCreateApiLayerInstance, hvalid, hp, hfast, if_true, chainInstanceCreateInfo]
  simp

theorem create_probe (b : Build) (w : World) (s : State) (ci : XrInstanceCreateInfo)
    (apiLayerInfo : Option XrApiLayerCreateInfo) (inst : XrInstance)
    (info : XrApiLayerCreateInfo) (nextInfo : XrApiLayerNextInfo)
    (next : List XrApiLayerNextInfo)
    (hvalid : validate b apiLayerInfo = some (info, nextInfo, next))
    (hc : ci.applicationInfo.engineName ≠ "Chromium")
    (hflag : bypassFlag b w s.history ci = 0)
    (hslow : ci.applicationInfo.engineName ≠ "OpenXRDeveloperTools") :
    xrCreateApiLayerInstance b w s ci apiLayerInfo inst =
      match (probe b w (s.history ++ (bypassDecision b w s.history ci).2) ci info nextInfo
          next).extensionsToRequest with
      | none =>
        { outcome := Outcome.threw
          state :=
            { s with
              history := s.history ++ (bypassDecision b w s.history ci).2 ++
                (probe b w (s.history ++ (bypassDecision b w s.history ci).2) ci info nextInfo
                  next).calls }
          apiLayerInfo :=
            some { info with
              nextInfo := (scrubLoop nextInfo next []).1 :: (scrubLoop nextInfo next []).2.1 }
          inst := inst }
      | some extensionsToRequest =>
        createRealInstance w s
          (s.history ++ (bypassDecision b w s.history ci).2 ++
            (probe b w (s.history ++ (bypassDecision b w s.history ci).2) ci info nextInfo
              next).calls)
          ci (chainInstanceCreateInfo false ci extensionsToRequest) info
          (scrubLoop nextInfo next []).1 (scrubLoop nextInfo next []).2.1 := by
  have hp := bypassDecision_pass b w s.history ci hc hflag
  simp only [xrCreateApiLayerInstance, hvalid, hp, hslow, if_false, Bool.false_eq_true]
  rfl

/-- What `createRealInstance` does, case by case: `r` is the answer of the chain to the real
creation call, `c` that call in the history. -/
theorem createRealInstance_spec (w : World) (s : State) (h : List Event)
    (ci chainInfo : XrInstanceCreateInfo) (info : XrApiLayerCreateInfo)
    (nextInfo : XrApiLayerNextInfo) (next : List XrApiLayerNextInfo)
    (out : CreateOut) (hout : out = createRealInstance w s h ci chainInfo info nextInfo next)
    (r : XrResult × XrInstance)
    (hr : r = w.nextCreateApiLayerInstance h nextInfo.nextCreateApiLayerInstance chainInfo
      { info with nextInfo := next })
    (c : Event)
    (hc : c = Event.nextCreateApiLayerInstance nextInfo.nextCreateApiLayerInstance chainInfo
      { info with nextInfo := next } r.1 r.2) :
    out.apiLayerInfo = some { info with nextInfo := nextInfo :: next } ∧
      out.inst = r.2 ∧ out.state.g_bypass = s.g_bypass ∧
      ∃ rest, out.state.history = h ++ c :: rest ∧
        ((r.1 ≠ XR_SUCCESS ∧ rest = [] ∧ out.outcome = Outcome.returned r.1 ∧
            out.state.g_instance = s.g_instance) ∨
          (r.1 = XR_SUCCESS ∧
            out.state.g_instance = some (installLayer s.g_instance nextInfo next r.2) ∧
            ∃ answer tail,
              rest = Event.layerCreateInstance (installLayer s.g_instance nextInfo next r.2) ci
                answer :: tail ∧
              (∀ e ∈ tail, e.isQuery = true) ∧
              ((answer = LayerResult.other_exception ∧ tail = [] ∧
                  out.outcome = Outcome.threw) ∨
                (answer = LayerResult.runtime_error ∧
                  tail = cleanupCalls w
                    (h ++ [c, Event.layerCreateInstance
                      (installLayer s.g_instance nextInfo next r.2) ci answer])
                    nextInfo.nextGetInstanceProcAddr r.2 ∧
                  out.outcome = Outcome.returned XR_ERROR_RUNTIME_FAILURE) ∨
                (∃ E, answer = LayerResult.returned E ∧
                  out.outcome = Outcome.returned E)))) := by
  subst hout hc hr
  by_cases hr1 : (w.nextCreateApiLayerInstance h nextInfo.nextCreateApiLayerInstance chainInfo
        { info with nextInfo := next }).1 = XR_SUCCESS
  · refine ⟨?_, ?_, ?_, ?_⟩
    · simp only [createRealInstance]; rw [if_pos hr1]; split <;> rfl
    · simp only [createRealInstance]; rw [if_pos hr1]; split <;> rfl
    · simp only [createRealInstance]; rw [if_pos hr1]; split <;> rfl
    cases hans : w.layerCreateInstance
        (h ++ [chainCreateEvent w h nextInfo.nextCreateApiLayerInstance chainInfo
          { info with nextInfo := next }])
        (installLayer s.g_instance nextInfo next
          (w.nextCreateApiLayerInstance h nextInfo.nextCreateApiLayerInstance chainInfo
            { info with nextInfo := next }).2) ci with
    | returned E =>
      by_cases hE : XR_FAILED E = true
      · refine ⟨_ :: cleanupCalls w
            (h ++ [chainCreateEvent w h nextInfo.nextCreateApiLayerInstance chainInfo
                { info with nextInfo := next },
              Event.layerCreateInstance
                (installLayer s.g_instance nextInfo next
                  (w.nextCreateApiLayerInstance h nextInfo.nextCreateApiLayerInstance chainInfo
                    { info with nextInfo := next }).2) ci (LayerResult.returned E)])
            nextInfo.nextGetInstanceProcAddr
            (w.nextCreateApiLayerInstance h nextInfo.nextCreateApiLayerInstance chainInfo
              { info with nextInfo := next }).2, ?_, Or.inr ⟨hr1, ?_, _, _, rfl, ?_,
          Or.inr (Or.inr ⟨E, rfl, ?_⟩)⟩⟩
        · simp only [createRealInstance]; rw [if_pos hr1]; simp only [hans, hE, if_true]
          simp [chainCreateEvent]
        · simp only [createRealInstance]; rw [if_pos hr1]; simp only [hans]
        · exact cleanupCalls_isQuery _ _ _ _
        · simp only [createRealInstance]; rw [if_pos hr1]; simp only [hans]
      · refine ⟨[_], ?_, Or.inr ⟨hr1, ?_, _, [], rfl, ?_,
          Or.inr (Or.inr ⟨E, rfl, ?_⟩)⟩⟩
        · simp only [createRealInstance]; rw [if_pos hr1]; simp only [hans, hE]
          simp [chainCreateEvent]
        · simp only [createRealInstance]; rw [if_pos hr1]; simp only [hans]
        · intro e he; cases he
        · simp only [createRealInstance]; rw [if_pos hr1]; simp only [hans]
    | runtime_error =>
      refine ⟨_ :: cleanupCalls w _ _ _, ?_, Or.inr ⟨hr1, ?_, _, _, rfl, ?_,
          Or.inr (Or.inl ⟨rfl, rfl, ?_⟩)⟩⟩
      · simp only [createRealInstance]; rw [if_pos hr1]; simp only [hans]
        simp [chainCreateEvent]
      · simp only [createRealInstance]; rw [if_pos hr1]; simp only [hans]
      · exact cleanupCalls_isQuery _ _ _ _
      · simp only [createRealInstance]; rw [if_pos hr1]; simp only [hans]
    | other_exception =>
      refine ⟨[_], ?_, Or.inr ⟨hr1, ?_, _, [], rfl, ?_, Or.inl ⟨rfl, rfl, ?_⟩⟩⟩
      · simp only [createRealInstance]; rw [if_pos hr1]; simp only [hans]
        simp [chainCreateEvent]
      · simp only [createRealInstance]; rw [if_pos hr1]; simp only [hans]
      · intro e he; cases he
      · simp only [createRealInstance]; rw [if_pos hr1]; simp only [hans]
  · simp only [createRealInstance]; rw [if_neg hr1]
    exact ⟨rfl, rfl, rfl, [], rfl, Or.inl ⟨hr1, rfl, rfl, rfl⟩⟩

/-- What the probing block does: `r` is the answer of the chain to the creation of the dummy
instance. -/
theorem probe_spec (b : Build) (w : World) (h : List Event) (ci : XrInstanceCreateInfo)
    (info : XrApiLayerCreateInfo) (nextInfo : XrApiLayerNextInfo)
    (next : List XrApiLayerNextInfo)
    (r : XrResult × XrInstance)
    (hr : r = w.nextCreateApiLayerInstance h
      (scrubLoop nextInfo next []).1.nextCreateApiLayerInstance (dummyCreateInfo ci)
      { info with nextInfo := (scrubLoop nextInfo next []).2.1 }) :
    ∃ q,
      (probe b w h ci info nextInfo next).calls =
        Event.nextCreateApiLayerInstance (scrubLoop nextInfo next []).1.nextCreateApiLayerInstance
          (dummyCreateInfo ci) { info with nextInfo := (scrubLoop nextInfo next []).2.1 }
          r.1 r.2 :: q ∧
      (∀ e ∈ q, e.isQuery = true) ∧
      ((probe b w h ci info nextInfo next).extensionsToRequest = none → q ≠ []) ∧
      (∀ exts, (probe b w h ci info nextInfo next).extensionsToRequest = some exts →
        exts.Nodup) ∧
      (r.1 ≠ XR_SUCCESS → q = [] ∧
        (probe b w h ci info nextInfo next).extensionsToRequest =
          some (scrubLoop nextInfo next []).2.2) := by
  subst hr
  refine ⟨_, rfl, ?_, ?_, ?_, ?_⟩
  · exact afterDummyCreate_isQuery _ _ _ _ _ _ _
  · intro hn
    exact afterDummyCreate_none _ _ _ _ _ _ _ hn
  · intro exts he
    exact afterDummyCreate_nodup _ _ _ _ _ _ _ exts
      (scrubLoop_exts_nodup next nextInfo [] List.nodup_nil) he
  · intro hne
    simp only [probe]
    rw [afterDummyCreate_failed _ _ _ _ _ _ _ hne]
    exact ⟨rfl, rfl⟩

theorem chainCreates_append (l₁ l₂ : List Event) :
    chainCreates (l₁ ++ l₂) = chainCreates l₁ ++ chainCreates l₂ := by
  simp [chainCreates]

theorem chainCreates_eq_nil {l : List Event} (h : ∀ e ∈ l, e.isChainCreate = false) :
    chainCreates l = [] := by
  simp only [chainCreates, List.filter_eq_nil_iff]
  intro e he
  simp [h e he]

theorem chainCreates_queries {l : List Event} (h : ∀ e ∈ l, e.isQuery = true) :
    chainCreates l = [] :=
  chainCreates_eq_nil (fun e he => Event.isQuery_not_chainCreate (h e he))

theorem chainCreates_registry (b : Build) (w : World) (h : List Event)
    (ci : XrInstanceCreateInfo) : chainCreates (bypassDecision b w h ci).2 = [] :=
  chainCreates_eq_nil
    (fun e he => Event.isRegistry_not_chainCreate (bypassDecision_isRegistry b w h ci e he))

/-- C10. In a valid call whose engine name is "OpenXRDeveloperTools" and for which the registry
holds no non-zero `bypass` value, the caller's layer-info record is left as it was (the chain is
not scrubbed), and the calls made are the registry accesses, then one creation call into the
chain through this layer's original chain entry, with the caller's create info unchanged and the
original upstream chain, then no other creation call: the chain's create function is called
exactly once and no dummy instance is created. -/
theorem fast_initialization (b : Build) (w : World) (s : State)
    (instanceCreateInfo : XrInstanceCreateInfo) (apiLayerInfo : Option XrApiLayerCreateInfo)
    (inst : XrInstance) (info : XrApiLayerCreateInfo) (nextInfo : XrApiLayerNextInfo)
    (next : List XrApiLayerNextInfo)
    (hvalid : validate b apiLayerInfo = some (info, nextInfo, next))
    (hengine : instanceCreateInfo.applicationInfo.engineName = "OpenXRDeveloperTools")
    (hflag : bypassFlag b w s.history instanceCreateInfo = 0) :
    (xrCreateApiLayerInstance b w s instanceCreateInfo apiLayerInfo inst).apiLayerInfo =
        apiLayerInfo ∧
      info.nextInfo = nextInfo :: next ∧
      ∃ result real rest,
        newEvents s.history
            (xrCreateApiLayerInstance b w s instanceCreateInfo apiLayerInfo inst).state.history =
          (bypassDecision b w s.history instanceCreateInfo).2 ++
            Event.nextCreateApiLayerInstance nextInfo.nextCreateApiLayerInstance
              instanceCreateInfo { info with nextInfo := next } result real :: rest ∧
        (∀ e ∈ (bypassDecision b w s.history instanceCreateInfo).2, e.isRegistry = true) ∧
        (∀ e ∈ rest, e.isChainCreate = false) ∧
        chainCreates (newEvents s.history
            (xrCreateApiLayerInstance b w s instanceCreateInfo apiLayerInfo inst).state.history) =
          [Event.nextCreateApiLayerInstance nextInfo.nextCreateApiLayerInstance
            instanceCreateInfo { info with nextInfo := next } result real] := by
  obtain ⟨ha, hn, -, -⟩ := validate_some hvalid
  rw [create_fast b w s instanceCreateInfo apiLayerInfo inst info nextInfo next hvalid hflag
    hengine]
  have hspec :=
    createRealInstance_spec w s (s.history ++ (bypassDecision b w s.history instanceCreateInfo).2)
      instanceCreateInfo instanceCreateInfo info nextInfo next _ rfl _ rfl _ rfl
  generalize w.nextCreateApiLayerInstance
    (s.history ++ (bypassDecision b w s.history instanceCreateInfo).2)
    nextInfo.nextCreateApiLayerInstance instanceCreateInfo { info with nextInfo := next } = r
    at hspec
  obtain ⟨h1, -, -, rest, hhist, hcases⟩ := hspec
  have hrest : ∀ e ∈ rest, e.isChainCreate = false ∧ e.isQuery = true ∨ e.isLayerCreate = true := by
    rcases hcases with ⟨-, hnil, -, -⟩ | ⟨-, -, answer, tail, htail, hq, -⟩
    · intro e he; rw [hnil] at he; cases he
    · intro e he
      rw [htail] at he
      rcases List.mem_cons.mp he with rfl | he
      · exact Or.inr rfl
      · exact Or.inl ⟨Event.isQuery_not_chainCreate (hq e he), hq e he⟩
  have hrest' : ∀ e ∈ rest, e.isChainCreate = false := by
    intro e he
    rcases hrest e he with h | h
    · exact h.1
    · cases e <;> simp_all [Event.isLayerCreate, Event.isChainCreate]
  refine ⟨?_, hn, r.1, r.2, rest, ?_, bypassDecision_isRegistry _ _ _ _, hrest', ?_⟩
  · rw [h1, ha, ← hn]
  · rw [hhist, List.append_assoc, newEvents_append]
  · rw [hhist, List.append_assoc, newEvents_append, chainCreates_append,
      chainCreates_registry]
    simp only [chainCreates, List.nil_append, List.filter_cons, Event.isChainCreate, if_true]
    have := chainCreates_eq_nil hrest'
    simp only [chainCreates] at this
    rw [this]

/-- The shape of a valid, non-bypassed call that is not in fast-initialization mode: either a
check of the probing block throws, or the call goes on to the real creation. -/
theorem create_slow_shape (b : Build) (w : World) (s : State) (ci : XrInstanceCreateInfo)
    (apiLayerInfo : Option XrApiLayerCreateInfo) (inst : XrInstance)
    (info : XrApiLayerCreateInfo) (nextInfo : XrApiLayerNextInfo)
    (next : List XrApiLayerNextInfo)
    (hvalid : validate b apiLayerInfo = some (info, nextInfo, next))
    (hc : ci.applicationInfo.engineName ≠ "Chromium")
    (hflag : bypassFlag b w s.history ci = 0)
    (hslow : ci.applicationInfo.engineName ≠ "OpenXRDeveloperTools")
    (out : CreateOut) (hout : out = xrCreateApiLayerInstance b w s ci apiLayerInfo inst)
    (reg : List Event) (hreg : reg = (bypassDecision b w s.history ci).2)
    (sc : XrApiLayerNextInfo × List XrApiLayerNextInfo × List String)
    (hsc : sc = scrubLoop nextInfo next []) :
    ∃ (r : XrResult × XrInstance) (q : List Event),
      (∀ e ∈ q, e.isQuery = true) ∧
      ((out.outcome = Outcome.threw ∧ r.1 = XR_SUCCESS ∧ q ≠ [] ∧
          out.state =
            { s with
              history := s.history ++ reg ++
                Event.nextCreateApiLayerInstance sc.1.nextCreateApiLayerInstance
                  (dummyCreateInfo ci) { info with nextInfo := sc.2.1 } r.1 r.2 :: q } ∧
          out.apiLayerInfo = some { info with nextInfo := sc.1 :: sc.2.1 } ∧ out.inst = inst) ∨
        ∃ exts : List String, exts.Nodup ∧ (r.1 ≠ XR_SUCCESS → q = [] ∧ exts = sc.2.2) ∧
          out = createRealInstance w s
            (s.history ++ reg ++
              Event.nextCreateApiLayerInstance sc.1.nextCreateApiLayerInstance
                (dummyCreateInfo ci) { info with nextInfo := sc.2.1 } r.1 r.2 :: q)
            ci (chainInstanceCreateInfo false ci exts) info sc.1 sc.2.1) := by
  subst hreg hsc
  rw [create_probe b w s ci apiLayerInfo inst info nextInfo next hvalid hc hflag hslow] at hout
  have hspec :=
    probe_spec b w (s.history ++ (bypassDecision b w s.history ci).2) ci info nextInfo next _ rfl
  generalize w.nextCreateApiLayerInstance (s.history ++ (bypassDecision b w s.history ci).2)
    (scrubLoop nextInfo next []).1.nextCreateApiLayerInstance (dummyCreateInfo ci)
    { info with nextInfo := (scrubLoop nextInfo next []).2.1 } = r at hspec
  obtain ⟨q, hcalls, hq, hnone, hnodup, hfail⟩ := hspec
  refine ⟨r, q, hq, ?_⟩
  cases hext : (probe b w (s.history ++ (bypassDecision b w s.history ci).2) ci info nextInfo
      next).extensionsToRequest with
  | none =>
    left
    rw [hext] at hout
    simp only at hout
    rw [hcalls] at hout
    subst hout
    refine ⟨rfl, ?_, hnone hext, rfl, rfl, rfl⟩
    by_contra hne
    have := (hfail hne).2
    rw [hext] at this
    cases this
  | some exts =>
    right
    rw [hext] at hout
    simp only at hout
    rw [hcalls] at hout
    refine ⟨exts, hnodup exts hext, ?_, hout⟩
    intro hne
    obtain ⟨h1, h2⟩ := hfail hne
    rw [hext] at h2
    exact ⟨h1, Option.some.inj h2⟩

theorem chainCreates_cons_create (fn : FnPtr) (ci : XrInstanceCreateInfo)
    (chain : XrApiLayerCreateInfo) (r : XrResult) (i : XrInstance) (l : List Event) :
    chainCreates (Event.nextCreateApiLayerInstance fn ci chain r i :: l) =
      Event.nextCreateApiLayerInstance fn ci chain r i :: chainCreates l := by
  simp [chainCreates, Event.isChainCreate]

/-- C4 (amended). In a valid, non-bypassed call outside fast-initialization mode whose first
creation call into the chain (the dummy instance) returns a result other than XR_SUCCESS, nothing
is queried and probing adds nothing: the calls made are the registry accesses, the dummy
creation and then the real creation, both through the scrubbed chain, followed by no further
creation call.  The real creation receives the caller's create info extended by what the
scrubber inferred, "XR_EXT_hand_tracking" when an upstream entry is named
"XR_APILAYER_ULTRALEAP_hand_tracking" and nothing otherwise, so with no such entry it receives
the caller's create info unchanged.  When the real creation returns XR_SUCCESS the singleton's
initialization is called, and the code `E` it returns is the result of the call. -/
theorem probe_failure_nonfatal (b : Build) (w : World) (s : State)
    (instanceCreateInfo : XrInstanceCreateInfo) (apiLayerInfo : Option XrApiLayerCreateInfo)
    (inst : XrInstance) (info : XrApiLayerCreateInfo) (nextInfo : XrApiLayerNextInfo)
    (next : List XrApiLayerNextInfo)
    (hvalid : validate b apiLayerInfo = some (info, nextInfo, next))
    (hengine : instanceCreateInfo.applicationInfo.engineName ≠ "Chromium")
    (hflag : bypassFlag b w s.history instanceCreateInfo = 0)
    (hslow : instanceCreateInfo.applicationInfo.engineName ≠ "OpenXRDeveloperTools")
    (hprobe : ∃ fn createInfo chain result dummy,
      (chainCreates (newEvents s.history
        (xrCreateApiLayerInstance b w s instanceCreateInfo apiLayerInfo inst).state.history)).head?
          = some (Event.nextCreateApiLayerInstance fn createInfo chain result dummy) ∧
        result ≠ XR_SUCCESS) :
    ∃ result dummy result2 real rest,
      result ≠ XR_SUCCESS ∧
      newEvents s.history
          (xrCreateApiLayerInstance b w s instanceCreateInfo apiLayerInfo inst).state.history =
        (bypassDecision b w s.history instanceCreateInfo).2 ++
          [ Event.nextCreateApiLayerInstance
              (scrubLoop nextInfo next []).1.nextCreateApiLayerInstance
              (dummyCreateInfo instanceCreateInfo)
              { info with nextInfo := (scrubLoop nextInfo next []).2.1 } result dummy,
            Event.nextCreateApiLayerInstance
              (scrubLoop nextInfo next []).1.nextCreateApiLayerInstance
              (chainInstanceCreateInfo false instanceCreateInfo
                (if ∃ entry ∈ next, entry.layerName = "XR_APILAYER_ULTRALEAP_hand_tracking" then
                  ["XR_EXT_hand_tracking"]
                else []))
              { info with nextInfo := (scrubLoop nextInfo next []).2.1 } result2 real ] ++ rest ∧
      ((∀ entry ∈ next, entry.layerName ≠ "XR_APILAYER_ULTRALEAP_hand_tracking") →
        chainInstanceCreateInfo false instanceCreateInfo
            (if ∃ entry ∈ next, entry.layerName = "XR_APILAYER_ULTRALEAP_hand_tracking" then
              ["XR_EXT_hand_tracking"]
            else []) = instanceCreateInfo) ∧
      (∀ e ∈ rest, e.isChainCreate = false) ∧
      (result2 = XR_SUCCESS →
        ∃ layer answer tail, rest = Event.layerCreateInstance layer instanceCreateInfo answer :: tail ∧
          ∀ E, answer = LayerResult.returned E →
            (xrCreateApiLayerInstance b w s instanceCreateInfo apiLayerInfo inst).outcome =
              Outcome.returned E) := by
  obtain ⟨r, q, hq, hshape⟩ :=
    create_slow_shape b w s instanceCreateInfo apiLayerInfo inst info nextInfo next hvalid hengine
      hflag hslow _ rfl _ rfl _ rfl
  have hregC := chainCreates_registry b w s.history instanceCreateInfo
  obtain ⟨fn0, ci0, chain0, result0, dummy0, hhead, hne0⟩ := hprobe
  have hexts : (scrubLoop nextInfo next []).2.2 =
      if ∃ entry ∈ next, entry.layerName = "XR_APILAYER_ULTRALEAP_hand_tracking" then
        ["XR_EXT_hand_tracking"]
      else [] := by
    rw [scrubLoop_exts]
    split <;> rfl
  rcases hshape with ⟨-, hr0, -, hstate, -, -⟩ | ⟨exts, -, hfail, hout⟩
  · exfalso
    rw [hstate] at hhead
    simp only [List.append_assoc, newEvents_append, chainCreates_append, hregC, List.nil_append,
      chainCreates_cons_create, List.head?_cons, Option.some.injEq,
      Event.nextCreateApiLayerInstance.injEq] at hhead
    exact hne0 (hhead.2.2.2.1 ▸ hr0)
  · have hspec := createRealInstance_spec w s _ instanceCreateInfo
      (chainInstanceCreateInfo false instanceCreateInfo exts) info (scrubLoop nextInfo next []).1
      (scrubLoop nextInfo next []).2.1 _ hout _ rfl _ rfl
    generalize w.nextCreateApiLayerInstance
      (s.history ++ (bypassDecision b w s.history instanceCreateInfo).2 ++
        Event.nextCreateApiLayerInstance (scrubLoop nextInfo next []).1.nextCreateApiLayerInstance
          (dummyCreateInfo instanceCreateInfo)
          { info with nextInfo := (scrubLoop nextInfo next []).2.1 } r.1 r.2 :: q)
      (scrubLoop nextInfo next []).1.nextCreateApiLayerInstance
      (chainInstanceCreateInfo false instanceCreateInfo exts)
      { info with nextInfo := (scrubLoop nextInfo next []).2.1 } = r2 at hspec
    obtain ⟨-, -, -, rest, hhist, hcases⟩ := hspec
    have hr : r.1 ≠ XR_SUCCESS := by
      rw [hhist] at hhead
      simp only [List.append_assoc, List.cons_append, newEvents_append, chainCreates_append,
        hregC, List.nil_append, chainCreates_cons_create, List.head?_cons, Option.some.injEq,
        Event.nextCreateApiLayerInstance.injEq] at hhead
      rw [hhead.2.2.2.1]; exact hne0
    obtain ⟨hqnil, hext⟩ := hfail hr
    subst hqnil
    rw [hext, hexts] at hhist hcases
    refine ⟨r.1, r.2, r2.1, r2.2, rest, hr, ?_, ?_, ?_, ?_⟩
    · rw [hhist]
      simp only [List.append_assoc, List.cons_append, List.nil_append, newEvents_append]
    · intro hno
      have : ¬ ∃ entry ∈ next, entry.layerName = "XR_APILAYER_ULTRALEAP_hand_tracking" := by
        rintro ⟨e, he, hn⟩; exact hno e he hn
      rw [if_neg this]
      simp [chainInstanceCreateInfo]
    · rcases hcases with ⟨-, hnil, -, -⟩ | ⟨-, -, answer, tail, htail, htq, -⟩
      · intro e he; rw [hnil] at he; cases he
      · intro e he
        rw [htail] at he
        rcases List.mem_cons.mp he with rfl | he
        · rfl
        · exact Event.isQuery_not_chainCreate (htq e he)
    · intro hsucc
      rcases hcases with ⟨hne, -, -, -⟩ | ⟨-, -, answer, tail, htail, -, hans⟩
      · exact absurd hsucc hne
      · refine ⟨_, answer, tail, htail, ?_⟩
        intro E hE
        rcases hans with ⟨ha, -, -⟩ | ⟨ha, -, -⟩ | ⟨E', ha, ho⟩
        · rw [ha] at hE; cases hE
        · rw [ha] at hE; cases hE
        · rw [ha] at hE
          cases hE
          exact ho

theorem cleanupCalls_eq (w : World) (h : List Event) (fn : FnPtr) (inst : XrInstance) :
    ∃ r destroy,
      cleanupCalls w h fn inst =
        Event.nextGetInstanceProcAddr fn inst "xrDestroyInstance" r destroy ::
          (if 0 ≤ r then [Event.xrDestroyInstance destroy inst] else []) := by
  refine ⟨(w.nextGetInstanceProcAddr h fn inst "xrDestroyInstance").1,
    (w.nextGetInstanceProcAddr h fn inst "xrDestroyInstance").2, ?_⟩
  simp only [cleanupCalls, XR_SUCCEEDED, resolveEvent, decide_eq_true_eq]
  split <;> rfl

/-- The two ways the real creation can go, as seen in the history: `pre` are the calls made
before it. -/
theorem createRealInstance_cases (w : World) (s : State) (pre : List Event)
    (ci chainInfo : XrInstanceCreateInfo) (info : XrApiLayerCreateInfo)
    (nextInfo : XrApiLayerNextInfo) (next : List XrApiLayerNextInfo)
    (hpre : ∀ e ∈ pre, e.isLayerCreate = false)
    (out : CreateOut)
    (hout : out = createRealInstance w s (s.history ++ pre) ci chainInfo info nextInfo next)
    (new : List Event) (hnew : new = newEvents s.history out.state.history) :
    (∃ pre fn info chain r i,
        new = pre ++ [Event.nextCreateApiLayerInstance fn info chain r i] ∧
          (∀ e ∈ pre, e.isLayerCreate = false) ∧ out.outcome = Outcome.returned r ∧
          out.state.g_instance = s.g_instance) ∨
      (∃ pre fn info chain layer answer tail,
        new = pre ++ Event.nextCreateApiLayerInstance fn info chain XR_SUCCESS out.inst ::
          Event.layerCreateInstance layer ci answer :: tail ∧
        (∀ e ∈ pre, e.isLayerCreate = false) ∧ (∀ e ∈ tail, e.isQuery = true) ∧
        out.state.g_instance = some layer ∧
        ((answer = LayerResult.other_exception ∧ tail = [] ∧ out.outcome = Outcome.threw) ∨
          (answer = LayerResult.runtime_error ∧
            out.outcome = Outcome.returned XR_ERROR_RUNTIME_FAILURE ∧
            ∃ r destroy,
              tail = Event.nextGetInstanceProcAddr layer.getInstanceProcAddr out.inst
                  "xrDestroyInstance" r destroy ::
                (if 0 ≤ r then [Event.xrDestroyInstance destroy out.inst] else [])) ∨
          (∃ E, answer = LayerResult.returned E ∧ out.outcome = Outcome.returned E))) := by
  have hspec := createRealInstance_spec w s (s.history ++ pre) ci chainInfo info nextInfo next
    out hout _ rfl _ rfl
  generalize w.nextCreateApiLayerInstance (s.history ++ pre) nextInfo.nextCreateApiLayerInstance
    chainInfo { info with nextInfo := next } = r at hspec
  obtain ⟨-, hinst, -, rest, hhist, hcases⟩ := hspec
  have hnew' : new = pre ++ Event.nextCreateApiLayerInstance nextInfo.nextCreateApiLayerInstance
      chainInfo { info with nextInfo := next } r.1 r.2 :: rest := by
    rw [hnew, hhist, List.append_assoc, newEvents_append]
  rcases hcases with ⟨-, hnil, ho, hg⟩ | ⟨hr, hg, answer, tail, htail, htq, hans⟩
  · left
    exact ⟨pre, nextInfo.nextCreateApiLayerInstance, chainInfo, { info with nextInfo := next },
      r.1, r.2, by rw [hnew', hnil], hpre, ho, hg⟩
  · right
    refine ⟨pre, nextInfo.nextCreateApiLayerInstance, chainInfo, { info with nextInfo := next },
      _, answer, tail, ?_, hpre, htq, hg, ?_⟩
    · rw [hnew', htail, hr, hinst]
    · rcases hans with h1 | ⟨ha, ht, ho⟩ | h3
      · exact Or.inl h1
      · refine Or.inr (Or.inl ⟨ha, ho, ?_⟩)
        obtain ⟨r', d', hc⟩ := cleanupCalls_eq w
          (s.history ++ pre ++
            [Event.nextCreateApiLayerInstance nextInfo.nextCreateApiLayerInstance chainInfo
              { info with nextInfo := next } r.1 r.2,
              Event.layerCreateInstance (installLayer s.g_instance nextInfo next r.2) ci answer])
          nextInfo.nextGetInstanceProcAddr r.2
        exact ⟨r', d', by rw [ht, hc, hinst]; rfl⟩
      · exact Or.inr (Or.inr h3)

/-- Every way a call of `xrCreateApiLayerInstance` can go, as seen in the history: validation
fails; the last call is a creation call into the chain whose result is returned (the bypass
path, or a failed real creation); a check of the probing block throws; or the real creation
succeeds and the singleton's initialization routine is called. -/
theorem create_cases (b : Build) (w : World) (s : State) (ci : XrInstanceCreateInfo)
    (apiLayerInfo : Option XrApiLayerCreateInfo) (inst : XrInstance)
    (out : CreateOut) (hout : out = xrCreateApiLayerInstance b w s ci apiLayerInfo inst)
    (new : List Event) (hnew : new = newEvents s.history out.state.history) :
    (validate b apiLayerInfo = none ∧ new = [] ∧ out.state = s ∧
        out.outcome = Outcome.returned XR_ERROR_INITIALIZATION_FAILED) ∨
      (∃ pre fn info chain r i,
        new = pre ++ [Event.nextCreateApiLayerInstance fn info chain r i] ∧
          (∀ e ∈ pre, e.isLayerCreate = false) ∧ out.outcome = Outcome.returned r ∧
          out.state.g_instance = s.g_instance) ∨
      (∃ pre e, new = pre ++ [e] ∧ e.isQuery = true ∧ (∀ e ∈ pre, e.isLayerCreate = false) ∧
          out.outcome = Outcome.threw ∧ out.state.g_instance = s.g_instance) ∨
      (∃ pre fn info chain layer answer tail,
        new = pre ++ Event.nextCreateApiLayerInstance fn info chain XR_SUCCESS out.inst ::
          Event.layerCreateInstance layer ci answer :: tail ∧
        (∀ e ∈ pre, e.isLayerCreate = false) ∧ (∀ e ∈ tail, e.isQuery = true) ∧
        out.state.g_instance = some layer ∧
        ((answer = LayerResult.other_exception ∧ tail = [] ∧ out.outcome = Outcome.threw) ∨
          (answer = LayerResult.runtime_error ∧
            out.outcome = Outcome.returned XR_ERROR_RUNTIME_FAILURE ∧
            ∃ r destroy,
              tail = Event.nextGetInstanceProcAddr layer.getInstanceProcAddr out.inst
                  "xrDestroyInstance" r destroy ::
                (if 0 ≤ r then [Event.xrDestroyInstance destroy out.inst] else [])) ∨
          (∃ E, answer = LayerResult.returned E ∧ out.outcome = Outcome.returned E))) := by
  cases hv : validate b apiLayerInfo with
  | none =>
    left
    have h1 : out.state = s := by rw [hout]; simp only [xrCreateApiLayerInstance, hv]
    have h2 : out.outcome = Outcome.returned XR_ERROR_INITIALIZATION_FAILED := by
      rw [hout]; simp only [xrCreateApiLayerInstance, hv]
    exact ⟨rfl, by rw [hnew, h1]; exact newEvents_self _, h1, h2⟩
  | some triple =>
    obtain ⟨info, nextInfo, next⟩ := triple
    right
    have hreg := bypassDecision_isRegistry b w s.history ci
    have hregL : ∀ e ∈ (bypassDecision b w s.history ci).2, e.isLayerCreate = false :=
      fun e he => Event.isRegistry_not_layerCreate (hreg e he)
    by_cases hbp : ci.applicationInfo.engineName = "Chromium" ∨ bypassFlag b w s.history ci ≠ 0
    · left
      have hb := bypassDecision_bypass b w s.history ci hbp
      refine ⟨(bypassDecision b w s.history ci).2, nextInfo.nextCreateApiLayerInstance, ci,
        { info with nextInfo := next },
        (w.nextCreateApiLayerInstance (s.history ++ (bypassDecision b w s.history ci).2)
          nextInfo.nextCreateApiLayerInstance ci { info with nextInfo := next }).1,
        (w.nextCreateApiLayerInstance (s.history ++ (bypassDecision b w s.history ci).2)
          nextInfo.nextCreateApiLayerInstance ci { info with nextInfo := next }).2,
        ?_, hregL, ?_, ?_⟩
      · rw [hnew, hout]
        simp only [xrCreateApiLayerInstance, hv, hb, if_true, List.append_assoc,
          newEvents_append, chainCreateEvent]
      · rw [hout]; simp only [xrCreateApiLayerInstance, hv, hb, if_true]
      · rw [hout]; simp only [xrCreateApiLayerInstance, hv, hb, if_true]
    · simp only [not_or, not_not] at hbp
      obtain ⟨hc, hflag⟩ := hbp
      by_cases hfast : ci.applicationInfo.engineName = "OpenXRDeveloperTools"
      · rw [create_fast b w s ci apiLayerInfo inst info nextInfo next hv hflag hfast] at hout
        rcases createRealInstance_cases w s _ ci ci info nextInfo next hregL out hout new hnew
          with h | h
        · exact Or.inl h
        · exact Or.inr (Or.inr h)
      · obtain ⟨r, q, hq, hshape⟩ :=
          create_slow_shape b w s ci apiLayerInfo inst info nextInfo next hv hc hflag hfast
            out hout _ rfl _ rfl
        have hpreL : ∀ e ∈ (bypassDecision b w s.history ci).2 ++
            Event.nextCreateApiLayerInstance
              (scrubLoop nextInfo next []).1.nextCreateApiLayerInstance (dummyCreateInfo ci)
              { info with nextInfo := (scrubLoop nextInfo next []).2.1 } r.1 r.2 :: q,
            e.isLayerCreate = false := by
          intro e he
          rcases List.mem_append.mp he with he | he
          · exact hregL e he
          · rcases List.mem_cons.mp he with rfl | he
            · rfl
            · exact Event.isQuery_not_layerCreate (hq e he)
        rcases hshape with ⟨ho, -, hqne, hstate, -, -⟩ | ⟨exts, -, -, hout'⟩
        · right; left
          refine ⟨(bypassDecision b w s.history ci).2 ++
            Event.nextCreateApiLayerInstance
              (scrubLoop nextInfo next []).1.nextCreateApiLayerInstance (dummyCreateInfo ci)
              { info with nextInfo := (scrubLoop nextInfo next []).2.1 } r.1 r.2 :: q.dropLast,
            q.getLast hqne, ?_, hq _ (List.getLast_mem hqne), ?_, ho, ?_⟩
          · rw [hnew, hstate]
            simp only [List.append_assoc, newEvents_append, List.cons_append]
            rw [List.dropLast_append_getLast hqne]
          · intro e he
            apply hpreL
            rcases List.mem_append.mp he with he | he
            · exact List.mem_append_left _ he
            · apply List.mem_append_right
              rcases List.mem_cons.mp he with rfl | he
              · exact List.mem_cons_self _ _
              · exact List.mem_cons_of_mem _ (List.mem_of_mem_dropLast he)
          · rw [hstate]
        · rw [List.append_assoc] at hout'
          rcases createRealInstance_cases w s _ ci _ info _ _ hpreL out hout' new hnew with h | h
          · exact Or.inl h
          · exact Or.inr (Or.inr h)

theorem concat_eq_concat {α : Type} {l₁ l₂ : List α} {a b : α} (h : l₁ ++ [a] = l₂ ++ [b]) :
    a = b := by
  have := (List.append_inj' h rfl).2
  simpa using this

/-- C5 (amended). When the singleton's instance-initialization routine raises a runtime error
during a create-instance call, the call returns XR_ERROR_RUNTIME_FAILURE, and its history ends
with: the real creation call, which returned XR_SUCCESS and the handle now in `*instance`; the
initialization call; the resolution of "xrDestroyInstance" on that handle through the resolver
given to the singleton; and, exactly when that resolution succeeded, the call of the resolved
entry point on that handle. -/
theorem init_runtime_error_cleanup (b : Build) (w : World) (s : State)
    (instanceCreateInfo : XrInstanceCreateInfo) (apiLayerInfo : Option XrApiLayerCreateInfo)
    (inst : XrInstance)
    (hraise : ∃ layer,
      Event.layerCreateInstance layer instanceCreateInfo LayerResult.runtime_error ∈
        newEvents s.history
          (xrCreateApiLayerInstance b w s instanceCreateInfo apiLayerInfo inst).state.history) :
    (xrCreateApiLayerInstance b w s instanceCreateInfo apiLayerInfo inst).outcome =
        Outcome.returned XR_ERROR_RUNTIME_FAILURE ∧
      ∃ pre fn createInfo chain layer result destroy,
        newEvents s.history
            (xrCreateApiLayerInstance b w s instanceCreateInfo apiLayerInfo inst).state.history =
          pre ++
            [ Event.nextCreateApiLayerInstance fn createInfo chain XR_SUCCESS
                (xrCreateApiLayerInstance b w s instanceCreateInfo apiLayerInfo inst).inst,
              Event.layerCreateInstance layer instanceCreateInfo LayerResult.runtime_error,
              Event.nextGetInstanceProcAddr layer.getInstanceProcAddr
                (xrCreateApiLayerInstance b w s instanceCreateInfo apiLayerInfo inst).inst
                "xrDestroyInstance" result destroy ] ++
            (if 0 ≤ result then
              [Event.xrDestroyInstance destroy
                (xrCreateApiLayerInstance b w s instanceCreateInfo apiLayerInfo inst).inst]
            else []) := by
  obtain ⟨layer0, hmem⟩ := hraise
  rcases create_cases b w s instanceCreateInfo apiLayerInfo inst _ rfl _ rfl with
    ⟨-, hnil, -, -⟩ | ⟨pre, fn, info, chain, r, i, hnew, hpre, -, -⟩ |
    ⟨pre, e, hnew, he, hpre, -, -⟩ |
    ⟨pre, fn, info, chain, layer, answer, tail, hnew, hpre, htail, -, hans⟩
  · rw [hnil] at hmem; cases hmem
  · exfalso
    rw [hnew] at hmem
    rcases List.mem_append.mp hmem with hm | hm
    · have := hpre _ hm; simp [Event.isLayerCreate] at this
    · simp at hm
  · exfalso
    rw [hnew] at hmem
    rcases List.mem_append.mp hmem with hm | hm
    · have := hpre _ hm; simp [Event.isLayerCreate] at this
    · simp only [List.mem_singleton] at hm
      rw [← hm] at he; simp [Event.isQuery] at he
  · have hanswer : answer = LayerResult.runtime_error := by
      rw [hnew] at hmem
      rcases List.mem_append.mp hmem with hm | hm
      · have := hpre _ hm; simp [Event.isLayerCreate] at this
      · rcases List.mem_cons.mp hm with hm | hm
        · cases hm
        · rcases List.mem_cons.mp hm with hm | hm
          · simp only [Event.layerCreateInstance.injEq] at hm
            exact hm.2.2.symm
          · have := htail _ hm; simp [Event.isQuery] at this
    rcases hans with ⟨ha, -, -⟩ | ⟨-, ho, r, destroy, ht⟩ | ⟨E, ha, -⟩
    · rw [ha] at hanswer; cases hanswer
    · refine ⟨ho, pre, fn, info, chain, layer, r, destroy, ?_⟩
      rw [hnew, ht, hanswer]
      simp
    · rw [ha] at hanswer; cases hanswer

/-- C7 (amended). The result code of `xrCreateApiLayerInstance`: a validation failure returns
XR_ERROR_INITIALIZATION_FAILED; when the last call made is a creation call into the chain (the
bypass path, or a real creation that did not return XR_SUCCESS) its result is returned
unchanged; when the singleton's initialization routine returns a code `E` without raising, `E`
is returned unchanged, failure or not; when the routine raises a runtime error,
XR_ERROR_RUNTIME_FAILURE is returned. -/
theorem create_result_codes (b : Build) (w : World) (s : State)
    (instanceCreateInfo : XrInstanceCreateInfo) (apiLayerInfo : Option XrApiLayerCreateInfo)
    (inst : XrInstance) :
    (validate b apiLayerInfo = none →
        (xrCreateApiLayerInstance b w s instanceCreateInfo apiLayerInfo inst).outcome =
          Outcome.returned XR_ERROR_INITIALIZATION_FAILED) ∧
      (∀ pre fn createInfo chain result handle,
        newEvents s.history
            (xrCreateApiLayerInstance b w s instanceCreateInfo apiLayerInfo inst).state.history =
          pre ++ [Event.nextCreateApiLayerInstance fn createInfo chain result handle] →
        (xrCreateApiLayerInstance b w s instanceCreateInfo apiLayerInfo inst).outcome =
          Outcome.returned result) ∧
      (∀ layer E,
        Event.layerCreateInstance layer instanceCreateInfo (LayerResult.returned E) ∈
            newEvents s.history
              (xrCreateApiLayerInstance b w s instanceCreateInfo apiLayerInfo inst).state.history →
          (xrCreateApiLayerInstance b w s instanceCreateInfo apiLayerInfo inst).outcome =
            Outcome.returned E) ∧
      (∀ layer,
        Event.layerCreateInstance layer instanceCreateInfo LayerResult.runtime_error ∈
            newEvents s.history
              (xrCreateApiLayerInstance b w s instanceCreateInfo apiLayerInfo inst).state.history →
          (xrCreateApiLayerInstance b w s instanceCreateInfo apiLayerInfo inst).outcome =
            Outcome.returned XR_ERROR_RUNTIME_FAILURE) := by
  have hcases := create_cases b w s instanceCreateInfo apiLayerInfo inst _ rfl _ rfl
  -- an initialization event of the history is the one of the fourth case
  have hinit : ∀ layer0 answer0,
      Event.layerCreateInstance layer0 instanceCreateInfo answer0 ∈
          newEvents s.history
            (xrCreateApiLayerInstance b w s instanceCreateInfo apiLayerInfo inst).state.history →
        (answer0 = LayerResult.other_exception ∧
            (xrCreateApiLayerInstance b w s instanceCreateInfo apiLayerInfo inst).outcome =
              Outcome.threw) ∨
          (answer0 = LayerResult.runtime_error ∧
            (xrCreateApiLayerInstance b w s instanceCreateInfo apiLayerInfo inst).outcome =
              Outcome.returned XR_ERROR_RUNTIME_FAILURE) ∨
          ∃ E, answer0 = LayerResult.returned E ∧
            (xrCreateApiLayerInstance b w s instanceCreateInfo apiLayerInfo inst).outcome =
              Outcome.returned E := by
    intro layer0 answer0 hmem
    rcases hcases with
      ⟨-, hnil, -, -⟩ | ⟨pre, fn, info, chain, r, i, hnew, hpre, -, -⟩ |
      ⟨pre, e, hnew, he, hpre, -, -⟩ |
      ⟨pre, fn, info, chain, layer, answer, tail, hnew, hpre, htail, -, hans⟩
    · rw [hnil] at hmem; cases hmem
    · exfalso
      rw [hnew] at hmem
      rcases List.mem_append.mp hmem with hm | hm
      · have := hpre _ hm; simp [Event.isLayerCreate] at this
      · simp at hm
    · exfalso
      rw [hnew] at hmem
      rcases List.mem_append.mp hmem with hm | hm
      · have := hpre _ hm; simp [Event.isLayerCreate] at this
      · simp only [List.mem_singleton] at hm
        rw [← hm] at he; simp [Event.isQuery] at he
    · have hanswer : answer = answer0 := by
        rw [hnew] at hmem
        rcases List.mem_append.mp hmem with hm | hm
        · have := hpre _ hm; simp [Event.isLayerCreate] at this
        · rcases List.mem_cons.mp hm with hm | hm
          · cases hm
          · rcases List.mem_cons.mp hm with hm | hm
            · simp only [Event.layerCreateInstance.injEq] at hm
              exact hm.2.2.symm
            · have := htail _ hm; simp [Event.isQuery] at this
      subst hanswer
      rcases hans with ⟨ha, -, ho⟩ | ⟨ha, ho, -⟩ | ⟨E, ha, ho⟩
      · exact Or.inl ⟨ha, ho⟩
      · exact Or.inr (Or.inl ⟨ha, ho⟩)
      · exact Or.inr (Or.inr ⟨E, ha, ho⟩)
  refine ⟨?_, ?_, ?_, ?_⟩
  · intro hv
    simp only [xrCreateApiLayerInstance, hv]
  · intro pre0 fn0 info0 chain0 r0 i0 hlast
    rcases hcases with
      ⟨-, hnil, -, -⟩ | ⟨pre, fn, info, chain, r, i, hnew, -, ho, -⟩ |
      ⟨pre, e, hnew, he, -, -, -⟩ |
      ⟨pre, fn, info, chain, layer, answer, tail, hnew, -, htail, -, -⟩
    · rw [hnil] at hlast
      exact absurd hlast (by simp)
    · rw [hnew] at hlast
      have := concat_eq_concat hlast
      simp only [Event.nextCreateApiLayerInstance.injEq] at this
      rw [ho, this.2.2.2.1]
    · exfalso
      rw [hnew] at hlast
      have := concat_eq_concat hlast
      rw [this] at he; simp [Event.isQuery] at he
    · exfalso
      rw [hnew] at hlast
      rcases List.eq_nil_or_concat tail with ht | ⟨L, x, ht⟩
      · rw [ht] at hlast
        have h2 : pre ++ [Event.nextCreateApiLayerInstance fn info chain XR_SUCCESS
              (xrCreateApiLayerInstance b w s instanceCreateInfo apiLayerInfo inst).inst,
            Event.layerCreateInstance layer instanceCreateInfo answer] =
            (pre ++ [Event.nextCreateApiLayerInstance fn info chain XR_SUCCESS
              (xrCreateApiLayerInstance b w s instanceCreateInfo apiLayerInfo inst).inst]) ++
            [Event.layerCreateInstance layer instanceCreateInfo answer] := by simp
        rw [h2] at hlast
        have := concat_eq_concat hlast
        cases this
      · have hx : x.isQuery = true := htail x (by rw [ht]; simp)
        rw [ht] at hlast
        have h2 : pre ++ Event.nextCreateApiLayerInstance fn info chain XR_SUCCESS
              (xrCreateApiLayerInstance b w s instanceCreateInfo apiLayerInfo inst).inst ::
            Event.layerCreateInstance layer instanceCreateInfo answer :: L.concat x =
            (pre ++ Event.nextCreateApiLayerInstance fn info chain XR_SUCCESS
              (xrCreateApiLayerInstance b w s instanceCreateInfo apiLayerInfo inst).inst ::
            Event.layerCreateInstance layer instanceCreateInfo answer :: L) ++ [x] := by simp
        rw [h2] at hlast
        have := concat_eq_concat hlast
        rw [this] at hx; simp [Event.isQuery] at hx
  · intro layer E hmem
    rcases hinit layer _ hmem with ⟨ha, -⟩ | ⟨ha, -⟩ | ⟨E', ha, ho⟩
    · cases ha
    · cases ha
    · cases ha; exact ho
  · intro layer hmem
    rcases hinit layer _ hmem with ⟨ha, -⟩ | ⟨-, ho⟩ | ⟨E', ha, -⟩
    · cases ha
    · exact ho
    · cases ha

/-- C9. The splice loop is idempotent on the chain: run on its own output it leaves the chain
(entries, their order, their names and function pointers) unchanged; and on a chain in which no
entry after the first has a name starting with "XR_APILAYER_VIVE_" a single run already leaves
the chain unchanged, hence two runs give the same chain as one. -/
theorem scrubChain_idempotent (chain : List XrApiLayerNextInfo)
    (extensionsToRequest again : List String) :
    (scrubChain (scrubChain chain extensionsToRequest).1 again).1 =
        (scrubChain chain extensionsToRequest).1 ∧
      ((∀ entry ∈ chain.tail, isViveLayer entry.layerName = false) →
        (scrubChain chain extensionsToRequest).1 = chain ∧
          (scrubChain (scrubChain chain extensionsToRequest).1 again).1 = chain) := by
  cases chain with
  | nil => simp [scrubChain]
  | cons info next =>
    have hclean : ∀ e ∈ (scrubLoop info next extensionsToRequest).2.1,
        isViveLayer e.layerName = false := scrubLoop_next_clean next info extensionsToRequest
    have hidem : (scrubChain (scrubChain (info :: next) extensionsToRequest).1 again).1 =
        (scrubChain (info :: next) extensionsToRequest).1 := by
      simp only [scrubChain]
      obtain ⟨h1, h2⟩ := scrubLoop_clean _ (scrubLoop info next extensionsToRequest).1 again hclean
      rw [h1, h2]
    refine ⟨hidem, ?_⟩
    intro hc
    have hone : (scrubChain (info :: next) extensionsToRequest).1 = info :: next := by
      simp only [scrubChain]
      obtain ⟨h1, h2⟩ := scrubLoop_clean next info extensionsToRequest hc
      rw [h1, h2]
    exact ⟨hone, by rw [hidem, hone]⟩

/-- On the probing path every creation call into the chain receives either the create info of
the dummy instance or the caller's create info extended by a duplicate-free set of
extensions. -/
theorem real_creation_receives (b : Build) (w : World) (s : State)
    (instanceCreateInfo : XrInstanceCreateInfo) (apiLayerInfo : Option XrApiLayerCreateInfo)
    (inst : XrInstance) (info : XrApiLayerCreateInfo) (nextInfo : XrApiLayerNextInfo)
    (next : List XrApiLayerNextInfo)
    (hvalid : validate b apiLayerInfo = some (info, nextInfo, next))
    (hengine : instanceCreateInfo.applicationInfo.engineName ≠ "Chromium")
    (hflag : bypassFlag b w s.history instanceCreateInfo = 0)
    (hslow : instanceCreateInfo.applicationInfo.engineName ≠ "OpenXRDeveloperTools") :
    ∀ fn createInfo chain result handle,
      Event.nextCreateApiLayerInstance fn createInfo chain result handle ∈
          newEvents s.history
            (xrCreateApiLayerInstance b w s instanceCreateInfo apiLayerInfo inst).state.history →
        createInfo = dummyCreateInfo instanceCreateInfo ∨
          ∃ exts : List String, exts.Nodup ∧
            createInfo = chainInstanceCreateInfo false instanceCreateInfo exts := by
  obtain ⟨r, q, hq, hshape⟩ :=
    create_slow_shape b w s instanceCreateInfo apiLayerInfo inst info nextInfo next hvalid hengine
      hflag hslow _ rfl _ rfl _ rfl
  have hreg := bypassDecision_isRegistry b w s.history instanceCreateInfo
  intro fn createInfo chain result handle hmem
  rcases hshape with ⟨-, -, -, hstate, -, -⟩ | ⟨exts, hnodup, -, hout⟩
  · rw [hstate] at hmem
    simp only [List.append_assoc, newEvents_append] at hmem
    rcases List.mem_append.mp hmem with hm | hm
    · have := hreg _ hm; simp [Event.isRegistry] at this
    · rcases List.mem_cons.mp hm with hm | hm
      · simp only [Event.nextCreateApiLayerInstance.injEq] at hm
        exact Or.inl hm.2.1
      · have := hq _ hm; simp [Event.isQuery] at this
  · have hspec := createRealInstance_spec w s _ instanceCreateInfo
      (chainInstanceCreateInfo false instanceCreateInfo exts) info (scrubLoop nextInfo next []).1
      (scrubLoop nextInfo next []).2.1 _ hout _ rfl _ rfl
    obtain ⟨-, -, -, rest, hhist, hcases⟩ := hspec
    rw [hhist] at hmem
    simp only [List.append_assoc, List.cons_append, newEvents_append] at hmem
    rcases List.mem_append.mp hmem with hm | hm
    · have := hreg _ hm; simp [Event.isRegistry] at this
    · rcases List.mem_cons.mp hm with hm | hm
      · simp only [Event.nextCreateApiLayerInstance.injEq] at hm
        exact Or.inl hm.2.1
      · rcases List.mem_append.mp hm with hm | hm
        · have := hq _ hm; simp [Event.isQuery] at this
        · rcases List.mem_cons.mp hm with hm | hm
          · simp only [Event.nextCreateApiLayerInstance.injEq] at hm
            exact Or.inr ⟨exts, hnodup, hm.2.1⟩
          · rcases hcases with ⟨-, hnil, -, -⟩ | ⟨-, -, answer, tail, htail, htq, -⟩
            · rw [hnil] at hm; cases hm
            · rw [htail] at hm
              rcases List.mem_cons.mp hm with hm | hm
              · cases hm
              · have := htq _ hm; simp [Event.isQuery] at this

/-! ## The claims on sample inputs -/

set_option maxRecDepth 100000

/-- C1, on a sample: a layer-info record with a wrong `structSize`. -/
theorem malformed_envelope_rejected_witness :
    ({ sampleLayerInfo sampleUpstream with structSize := 543 } : XrApiLayerCreateInfo).structSize ≠
        sampleBuild.sizeof_XrApiLayerCreateInfo ∧
      xrCreateApiLayerInstance sampleBuild (sampleWorld 0 (LayerResult.returned 0) 0)
          initialState (sampleCreateInfo "Bar" "Unity" [])
          (some { sampleLayerInfo sampleUpstream with structSize := 543 }) 7 =
        { outcome := Outcome.returned XR_ERROR_INITIALIZATION_FAILED
          state := initialState
          apiLayerInfo := some { sampleLayerInfo sampleUpstream with structSize := 543 }
          inst := 7 } :=
  ⟨by decide,
    malformed_envelope_rejected sampleBuild (sampleWorld 0 (LayerResult.returned 0) 0)
      initialState (sampleCreateInfo "Bar" "Unity" [])
      (some { sampleLayerInfo sampleUpstream with structSize := 543 }) 7
      (Or.inr ⟨_, rfl, Or.inr (Or.inr (Or.inl (by decide)))⟩)⟩

/-- C2, on a sample: the registry holds `bypass = 1` for the application "Foo". -/
theorem bypass_resolver_captured_witness :
    validate sampleBuild (some (sampleLayerInfo sampleUpstream)) =
        some (sampleLayerInfo sampleUpstream, sampleSelf, sampleUpstream) ∧
      bypassFlag sampleBuild (sampleWorld 0 (LayerResult.returned 0) 0) initialState.history
          (sampleCreateInfo "Foo" "Unity" []) ≠ 0 ∧
      (xrCreateApiLayerInstance sampleBuild (sampleWorld 0 (LayerResult.returned 0) 0)
          initialState (sampleCreateInfo "Foo" "Unity" [])
          (some (sampleLayerInfo sampleUpstream)) 0).state.g_bypass = 11 :=
  ⟨by decide, by decide,
    (bypass_resolver_captured sampleBuild (sampleWorld 0 (LayerResult.returned 0) 0)
      initialState (sampleCreateInfo "Foo" "Unity" []) (some (sampleLayerInfo sampleUpstream)) 0
      (sampleLayerInfo sampleUpstream) sampleSelf sampleUpstream (by decide)
      (Or.inr (by decide))).1⟩

/-- C3 fails as stated: the caller requests "XR_EXT_hand_tracking" (a list without duplicates),
the runtime reports that extension, and the real creation call receives the name twice, with
count 2. -/
theorem duplicate_extension_requested :
    (sampleCreateInfo "Bar" "Unity" ["XR_EXT_hand_tracking"]).enabledExtensionNames.Nodup ∧
      chainCreates
          (newEvents initialState.history
            (xrCreateApiLayerInstance sampleBuild (sampleWorld 0 (LayerResult.returned 0) 0)
              initialState (sampleCreateInfo "Bar" "Unity" ["XR_EXT_hand_tracking"])
              (some (sampleLayerInfo sampleCleanUpstream)) 0).state.history) =
        [ Event.nextCreateApiLayerInstance 12
            (dummyCreateInfo (sampleCreateInfo "Bar" "Unity" ["XR_EXT_hand_tracking"]))
            { sampleLayerInfo sampleCleanUpstream with nextInfo := sampleCleanUpstream } 0 100,
          Event.nextCreateApiLayerInstance 12
            { sampleCreateInfo "Bar" "Unity" ["XR_EXT_hand_tracking"] with
              enabledExtensionCount := 2
              enabledExtensionNames := ["XR_EXT_hand_tracking", "XR_EXT_hand_tracking"] }
            { sampleLayerInfo sampleCleanUpstream with nextInfo := sampleCleanUpstream } 0 101 ] ∧
      ¬ ["XR_EXT_hand_tracking", "XR_EXT_hand_tracking"].Nodup := by
  refine ⟨by decide, by decide, by decide⟩

/-- C3 (amended), on a sample: one requested extension and one detected extension. -/
theorem chainInstanceCreateInfo_extensions_witness :
    (sampleCreateInfo "Bar" "Unity" ["XR_KHR_D3D11_enable"]).enabledExtensionCount =
        (sampleCreateInfo "Bar" "Unity" ["XR_KHR_D3D11_enable"]).enabledExtensionNames.length ∧
      (chainInstanceCreateInfo false (sampleCreateInfo "Bar" "Unity" ["XR_KHR_D3D11_enable"])
          ["XR_EXT_hand_tracking"]).enabledExtensionNames =
        ["XR_KHR_D3D11_enable"] ++ ["XR_EXT_hand_tracking"] :=
  ⟨by decide,
    (chainInstanceCreateInfo_extensions (sampleCreateInfo "Bar" "Unity" ["XR_KHR_D3D11_enable"])
      ["XR_EXT_hand_tracking"] (by decide) (by decide) (by decide) (by decide)).1⟩

/-- C4 fails as stated: the Ultraleap layer is upstream and the creation of the dummy instance
fails; the real creation call still receives "XR_EXT_hand_tracking" on top of the caller's
extension, with count 2 instead of 1. -/
theorem probe_failure_keeps_inferred_extension :
    chainCreates
        (newEvents initialState.history
          (xrCreateApiLayerInstance sampleBuild
            (sampleWorld XR_ERROR_RUNTIME_FAILURE (LayerResult.returned 0) 0) initialState
            (sampleCreateInfo "Bar" "Unity" ["XR_KHR_D3D11_enable"])
            (some (sampleLayerInfo sampleUpstream)) 0).state.history) =
      [ Event.nextCreateApiLayerInstance 22
          (dummyCreateInfo (sampleCreateInfo "Bar" "Unity" ["XR_KHR_D3D11_enable"]))
          { sampleLayerInfo sampleUpstream with
            nextInfo := [sampleEntry "XR_APILAYER_ULTRALEAP_hand_tracking" 31 32] }
          XR_ERROR_RUNTIME_FAILURE 100,
        Event.nextCreateApiLayerInstance 22
          { sampleCreateInfo "Bar" "Unity" ["XR_KHR_D3D11_enable"] with
            enabledExtensionCount := 2
            enabledExtensionNames := ["XR_KHR_D3D11_enable", "XR_EXT_hand_tracking"] }
          { sampleLayerInfo sampleUpstream with
            nextInfo := [sampleEntry "XR_APILAYER_ULTRALEAP_hand_tracking" 31 32] }
          XR_SUCCESS 101 ] := by
  decide

/-- C4 (amended), on a sample: the creation of the dummy instance fails and no Ultraleap layer
is upstream. -/
theorem probe_failure_nonfatal_witness :
    (chainCreates
        (newEvents initialState.history
          (xrCreateApiLayerInstance sampleBuild
            (sampleWorld XR_ERROR_RUNTIME_FAILURE (LayerResult.returned 0) 0) initialState
            (sampleCreateInfo "Bar" "Unity" ["XR_KHR_D3D11_enable"])
            (some (sampleLayerInfo sampleCleanUpstream)) 0).state.history)).head? =
        some (Event.nextCreateApiLayerInstance 12
          (dummyCreateInfo (sampleCreateInfo "Bar" "Unity" ["XR_KHR_D3D11_enable"]))
          { sampleLayerInfo sampleCleanUpstream with nextInfo := sampleCleanUpstream }
          XR_ERROR_RUNTIME_FAILURE 100) ∧
      ∃ fn chain result dummy result2 real rest,
        result ≠ XR_SUCCESS ∧
        newEvents initialState.history
            (xrCreateApiLayerInstance sampleBuild
              (sampleWorld XR_ERROR_RUNTIME_FAILURE (LayerResult.returned 0) 0) initialState
              (sampleCreateInfo "Bar" "Unity" ["XR_KHR_D3D11_enable"])
              (some (sampleLayerInfo sampleCleanUpstream)) 0).state.history =
          (bypassDecision sampleBuild
              (sampleWorld XR_ERROR_RUNTIME_FAILURE (LayerResult.returned 0) 0)
              initialState.history (sampleCreateInfo "Bar" "Unity" ["XR_KHR_D3D11_enable"])).2 ++
            [ Event.nextCreateApiLayerInstance fn
                (dummyCreateInfo (sampleCreateInfo "Bar" "Unity" ["XR_KHR_D3D11_enable"])) chain
                result dummy,
              Event.nextCreateApiLayerInstance fn
                (chainInstanceCreateInfo false
                  (sampleCreateInfo "Bar" "Unity" ["XR_KHR_D3D11_enable"])
                  (if ∃ entry ∈ sampleCleanUpstream,
                      entry.layerName = "XR_APILAYER_ULTRALEAP_hand_tracking" then
                    ["XR_EXT_hand_tracking"]
                  else []))
                chain result2 real ] ++ rest := by
  have hprobe : (chainCreates
      (newEvents initialState.history
        (xrCreateApiLayerInstance sampleBuild
          (sampleWorld XR_ERROR_RUNTIME_FAILURE (LayerResult.returned 0) 0) initialState
          (sampleCreateInfo "Bar" "Unity" ["XR_KHR_D3D11_enable"])
          (some (sampleLayerInfo sampleCleanUpstream)) 0).state.history)).head? =
      some (Event.nextCreateApiLayerInstance 12
        (dummyCreateInfo (sampleCreateInfo "Bar" "Unity" ["XR_KHR_D3D11_enable"]))
        { sampleLayerInfo sampleCleanUpstream with nextInfo := sampleCleanUpstream }
        XR_ERROR_RUNTIME_FAILURE 100) := by decide
  refine ⟨hprobe, ?_⟩
  obtain ⟨result, dummy, result2, real, rest, h1, h2, -⟩ :=
    probe_failure_nonfatal sampleBuild
      (sampleWorld XR_ERROR_RUNTIME_FAILURE (LayerResult.returned 0) 0) initialState
      (sampleCreateInfo "Bar" "Unity" ["XR_KHR_D3D11_enable"])
      (some (sampleLayerInfo sampleCleanUpstream)) 0
      (sampleLayerInfo sampleCleanUpstream) sampleSelf sampleCleanUpstream
      (by decide) (by decide) (by decide) (by decide)
      ⟨_, _, _, _, _, hprobe, by decide⟩
  exact ⟨_, _, result, dummy, result2, real, rest, h1, h2⟩

/-- C5 fails as stated: the call is valid and not bypassed, the real creation succeeds with
handle 101, the singleton's initialization raises a runtime error, the resolution of
"xrDestroyInstance" fails, and no instance-destruction entry point is called on handle 101. -/
theorem cleanup_skipped_when_resolution_fails :
    validate sampleBuild (some (sampleLayerInfo sampleCleanUpstream)) ≠ none ∧
      (bypassDecision sampleBuild
        (sampleWorld 0 LayerResult.runtime_error XR_ERROR_VALIDATION_FAILURE)
        initialState.history (sampleCreateInfo "Bar" "Unity" [])).1 = false ∧
      Event.nextCreateApiLayerInstance 12
          (chainInstanceCreateInfo false (sampleCreateInfo "Bar" "Unity" [])
            ["XR_EXT_hand_tracking"])
          { sampleLayerInfo sampleCleanUpstream with nextInfo := sampleCleanUpstream }
          XR_SUCCESS 101 ∈
        newEvents initialState.history
          (xrCreateApiLayerInstance sampleBuild
            (sampleWorld 0 LayerResult.runtime_error XR_ERROR_VALIDATION_FAILURE) initialState
            (sampleCreateInfo "Bar" "Unity" [])
            (some (sampleLayerInfo sampleCleanUpstream)) 0).state.history ∧
      Event.layerCreateInstance
          { getInstanceProcAddr := 11, inst := 101,
            upstreamLayers := ["XR_APILAYER_NOVENDOR_test"] }
          (sampleCreateInfo "Bar" "Unity" []) LayerResult.runtime_error ∈
        newEvents initialState.history
          (xrCreateApiLayerInstance sampleBuild
            (sampleWorld 0 LayerResult.runtime_error XR_ERROR_VALIDATION_FAILURE) initialState
            (sampleCreateInfo "Bar" "Unity" [])
            (some (sampleLayerInfo sampleCleanUpstream)) 0).state.history ∧
      (xrCreateApiLayerInstance sampleBuild
          (sampleWorld 0 LayerResult.runtime_error XR_ERROR_VALIDATION_FAILURE) initialState
          (sampleCreateInfo "Bar" "Unity" [])
          (some (sampleLayerInfo sampleCleanUpstream)) 0).inst = 101 ∧
      destroyCalls 101
          (newEvents initialState.history
            (xrCreateApiLayerInstance sampleBuild
              (sampleWorld 0 LayerResult.runtime_error XR_ERROR_VALIDATION_FAILURE) initialState
              (sampleCreateInfo "Bar" "Unity" [])
              (some (sampleLayerInfo sampleCleanUpstream)) 0).state.history) = [] := by
  refine ⟨by decide, by decide, by decide, by decide, by decide, by decide⟩

/-- C5 (amended), on a sample: the initialization raises a runtime error and the resolution of
"xrDestroyInstance" succeeds, so the resolved entry point is called on the real instance. -/
theorem init_runtime_error_cleanup_witness :
    Event.layerCreateInstance
          { getInstanceProcAddr := 11, inst := 101,
            upstreamLayers := ["XR_APILAYER_NOVENDOR_test"] }
          (sampleCreateInfo "Bar" "Unity" []) LayerResult.runtime_error ∈
        newEvents initialState.history
          (xrCreateApiLayerInstance sampleBuild (sampleWorld 0 LayerResult.runtime_error 0)
            initialState (sampleCreateInfo "Bar" "Unity" [])
            (some (sampleLayerInfo sampleCleanUpstream)) 0).state.history ∧
      (xrCreateApiLayerInstance sampleBuild (sampleWorld 0 LayerResult.runtime_error 0)
          initialState (sampleCreateInfo "Bar" "Unity" [])
          (some (sampleLayerInfo sampleCleanUpstream)) 0).outcome =
        Outcome.returned XR_ERROR_RUNTIME_FAILURE ∧
      destroyCalls 101
          (newEvents initialState.history
            (xrCreateApiLayerInstance sampleBuild (sampleWorld 0 LayerResult.runtime_error 0)
              initialState (sampleCreateInfo "Bar" "Unity" [])
              (some (sampleLayerInfo sampleCleanUpstream)) 0).state.history) =
        [Event.xrDestroyInstance 900 101] := by
  have hraise : Event.layerCreateInstance
        { getInstanceProcAddr := 11, inst := 101,
          upstreamLayers := ["XR_APILAYER_NOVENDOR_test"] }
        (sampleCreateInfo "Bar" "Unity" []) LayerResult.runtime_error ∈
      newEvents initialState.history
        (xrCreateApiLayerInstance sampleBuild (sampleWorld 0 LayerResult.runtime_error 0)
          initialState (sampleCreateInfo "Bar" "Unity" [])
          (some (sampleLayerInfo sampleCleanUpstream)) 0).state.history := by decide
  exact ⟨hraise,
    (init_runtime_error_cleanup sampleBuild (sampleWorld 0 LayerResult.runtime_error 0)
      initialState (sampleCreateInfo "Bar" "Unity" [])
      (some (sampleLayerInfo sampleCleanUpstream)) 0 ⟨_, hraise⟩).1,
    by decide⟩

/-- C7 fails as stated: the real creation succeeds and the singleton's initialization returns
XR_ERROR_VALIDATION_FAILURE without raising; the call returns that code, not
XR_ERROR_RUNTIME_FAILURE. -/
theorem initialization_failure_code_kept :
    Event.nextCreateApiLayerInstance 12
          (chainInstanceCreateInfo false (sampleCreateInfo "Bar" "Unity" [])
            ["XR_EXT_hand_tracking"])
          { sampleLayerInfo sampleCleanUpstream with nextInfo := sampleCleanUpstream }
          XR_SUCCESS 101 ∈
        newEvents initialState.history
          (xrCreateApiLayerInstance sampleBuild
            (sampleWorld 0 (LayerResult.returned XR_ERROR_VALIDATION_FAILURE) 0) initialState
            (sampleCreateInfo "Bar" "Unity" [])
            (some (sampleLayerInfo sampleCleanUpstream)) 0).state.history ∧
      Event.layerCreateInstance
          { getInstanceProcAddr := 11, inst := 101,
            upstreamLayers := ["XR_APILAYER_NOVENDOR_test"] }
          (sampleCreateInfo "Bar" "Unity" [])
          (LayerResult.returned XR_ERROR_VALIDATION_FAILURE) ∈
        newEvents initialState.history
          (xrCreateApiLayerInstance sampleBuild
            (sampleWorld 0 (LayerResult.returned XR_ERROR_VALIDATION_FAILURE) 0) initialState
            (sampleCreateInfo "Bar" "Unity" [])
            (some (sampleLayerInfo sampleCleanUpstream)) 0).state.history ∧
      (xrCreateApiLayerInstance sampleBuild
          (sampleWorld 0 (LayerResult.returned XR_ERROR_VALIDATION_FAILURE) 0) initialState
          (sampleCreateInfo "Bar" "Unity" [])
          (some (sampleLayerInfo sampleCleanUpstream)) 0).outcome =
        Outcome.returned XR_ERROR_VALIDATION_FAILURE ∧
      Outcome.returned XR_ERROR_VALIDATION_FAILURE ≠ Outcome.returned XR_ERROR_RUNTIME_FAILURE := by
  refine ⟨by decide, by decide, by decide, by decide⟩

/-- C7 (amended), on a sample: the initialization returns XR_ERROR_VALIDATION_FAILURE. -/
theorem create_result_codes_witness :
    Event.layerCreateInstance
          { getInstanceProcAddr := 11, inst := 101,
            upstreamLayers := ["XR_APILAYER_NOVENDOR_test"] }
          (sampleCreateInfo "Bar" "Unity" [])
          (LayerResult.returned XR_ERROR_VALIDATION_FAILURE) ∈
        newEvents initialState.history
          (xrCreateApiLayerInstance sampleBuild
            (sampleWorld 0 (LayerResult.returned XR_ERROR_VALIDATION_FAILURE) 0) initialState
            (sampleCreateInfo "Bar" "Unity" [])
            (some (sampleLayerInfo sampleCleanUpstream)) 0).state.history ∧
      (xrCreateApiLayerInstance sampleBuild
          (sampleWorld 0 (LayerResult.returned XR_ERROR_VALIDATION_FAILURE) 0) initialState
          (sampleCreateInfo "Bar" "Unity" [])
          (some (sampleLayerInfo sampleCleanUpstream)) 0).outcome =
        Outcome.returned XR_ERROR_VALIDATION_FAILURE := by
  have hinit : Event.layerCreateInstance
        { getInstanceProcAddr := 11, inst := 101,
          upstreamLayers := ["XR_APILAYER_NOVENDOR_test"] }
        (sampleCreateInfo "Bar" "Unity" [])
        (LayerResult.returned XR_ERROR_VALIDATION_FAILURE) ∈
      newEvents initialState.history
        (xrCreateApiLayerInstance sampleBuild
          (sampleWorld 0 (LayerResult.returned XR_ERROR_VALIDATION_FAILURE) 0) initialState
          (sampleCreateInfo "Bar" "Unity" [])
          (some (sampleLayerInfo sampleCleanUpstream)) 0).state.history := by decide
  exact ⟨hinit,
    (create_result_codes sampleBuild
      (sampleWorld 0 (LayerResult.returned XR_ERROR_VALIDATION_FAILURE) 0) initialState
      (sampleCreateInfo "Bar" "Unity" [])
      (some (sampleLayerInfo sampleCleanUpstream)) 0).2.2.1 _ _ hinit⟩

/-- C9, on samples: a chain without Vive layers, and a chain with one. -/
theorem scrubChain_idempotent_witness :
    (∀ entry ∈ (sampleSelf :: sampleCleanUpstream).tail, isViveLayer entry.layerName = false) ∧
      (scrubChain (sampleSelf :: sampleCleanUpstream) []).1 = sampleSelf :: sampleCleanUpstream ∧
      (scrubChain (scrubChain (sampleSelf :: sampleUpstream) []).1 []).1 =
        (scrubChain (sampleSelf :: sampleUpstream) []).1 :=
  ⟨by decide,
    ((scrubChain_idempotent (sampleSelf :: sampleCleanUpstream) [] []).2 (by decide)).1,
    (scrubChain_idempotent (sampleSelf :: sampleUpstream) [] []).1⟩

/-- C10, on a sample: the engine is "OpenXRDeveloperTools" and a Vive layer is upstream. -/
theorem fast_initialization_witness :
    validate sampleBuild (some (sampleLayerInfo sampleUpstream)) =
        some (sampleLayerInfo sampleUpstream, sampleSelf, sampleUpstream) ∧
      bypassFlag sampleBuild (sampleWorld 0 (LayerResult.returned 0) 0) initialState.history
          (sampleCreateInfo "Bar" "OpenXRDeveloperTools" ["XR_KHR_D3D11_enable"]) = 0 ∧
      (xrCreateApiLayerInstance sampleBuild (sampleWorld 0 (LayerResult.returned 0) 0)
          initialState (sampleCreateInfo "Bar" "OpenXRDeveloperTools" ["XR_KHR_D3D11_enable"])
          (some (sampleLayerInfo sampleUpstream)) 0).apiLayerInfo =
        some (sampleLayerInfo sampleUpstream) :=
  ⟨by decide, by decide,
    (fast_initialization sampleBuild (sampleWorld 0 (LayerResult.returned 0) 0) initialState
      (sampleCreateInfo "Bar" "OpenXRDeveloperTools" ["XR_KHR_D3D11_enable"])
      (some (sampleLayerInfo sampleUpstream)) 0 (sampleLayerInfo sampleUpstream) sampleSelf
      sampleUpstream (by decide) (by decide) (by decide)).1⟩

end Toolkit
